import Mathlib

namespace Multihash

/-! ### Machine-word helpers (32-bit and 64-bit arithmetic as `Nat` mod `2^w`) -/

def w32 (n : Nat) : Nat := n % 4294967296

def w64 (n : Nat) : Nat := n % 18446744073709551616

/-- Left-rotate a 32-bit word by `n` bits (`0 < n < 32`, argument below `2^32`). -/
def rotl32 (x n : Nat) : Nat := w32 (x * 2 ^ n) + x / 2 ^ (32 - n)

/-- Right-rotate a 32-bit word by `n` bits. -/
def rotr32 (x n : Nat) : Nat := x / 2 ^ n + w32 (x * 2 ^ (32 - n))

/-- Left-rotate a 64-bit word by `n` bits. -/
def rotl64 (x n : Nat) : Nat := w64 (x * 2 ^ n) + x / 2 ^ (64 - n)

/-- Right-rotate a 64-bit word by `n` bits. -/
def rotr64 (x n : Nat) : Nat := x / 2 ^ n + w64 (x * 2 ^ (64 - n))

/-- Forces a `Nat` to a literal before passing it on: pattern matching on the
constructor makes the kernel evaluate the argument, which keeps iterated hash
rounds shareable during kernel reduction. Semantically the identity. -/
def forceNat (n : Nat) (k : Nat → α) : α :=
  match n with
  | 0 => k 0
  | m+1 => k (m+1)

theorem forceNat_eq (n : Nat) (k : Nat → α) : forceNat n k = k n := by
  cases n <;> rfl

/-- Big-endian bytes of a 32-bit word. -/
def be32 (x : Nat) : List Nat :=
  [x / 16777216 % 256, x / 65536 % 256, x / 256 % 256, x % 256]

/-- Big-endian bytes of a 64-bit word. -/
def be64 (x : Nat) : List Nat :=
  [x / 72057594037927936 % 256, x / 281474976710656 % 256,
   x / 1099511627776 % 256, x / 4294967296 % 256,
   x / 16777216 % 256, x / 65536 % 256, x / 256 % 256, x % 256]

/-- Little-endian bytes of a 32-bit word. -/
def le32 (x : Nat) : List Nat :=
  [x % 256, x / 256 % 256, x / 65536 % 256, x / 16777216 % 256]

/-- Little-endian bytes of a 64-bit word. -/
def le64 (x : Nat) : List Nat :=
  [x % 256, x / 256 % 256, x / 65536 % 256, x / 16777216 % 256,
   x / 4294967296 % 256, x / 1099511627776 % 256,
   x / 281474976710656 % 256, x / 72057594037927936 % 256]

/-! ### Murmur3 (32-bit, seed 0), as in the vendored murmur3 package -/

/-- One 4-byte body step of murmur3-32. -/
def murmurMix (h k : Nat) : Nat :=
  w32 (rotl32 (h ^^^ w32 (rotl32 (w32 (k * 0xcc9e2d51)) 15 * 0x1b873593)) 13 * 5 + 0xe6546b64)

/-- Mix the 1–3 trailing bytes (little-endian) into the state; no-op when empty. -/
def murmurTailMix (h : Nat) : List Nat → Nat
  | [] => h
  | [b0] => h ^^^ w32 (rotl32 (w32 (b0 * 0xcc9e2d51)) 15 * 0x1b873593)
  | [b0, b1] => h ^^^ w32 (rotl32 (w32 ((b0 + b1 * 256) * 0xcc9e2d51)) 15 * 0x1b873593)
  | b0 :: b1 :: b2 :: _ =>
      h ^^^ w32 (rotl32 (w32 ((b0 + b1 * 256 + b2 * 65536) * 0xcc9e2d51)) 15 * 0x1b873593)

/-- Process the 4-byte body blocks, then the tail. -/
def murmurBody (h : Nat) : List Nat → Nat
  | b0 :: b1 :: b2 :: b3 :: rest =>
      murmurBody (murmurMix h (b0 + b1 * 256 + b2 * 65536 + b3 * 16777216)) rest
  | tl => murmurTailMix h tl

/-- 32-bit murmur3 hash with seed 0 (`murmur3.Sum32`). -/
def murmur3Sum32 (data : List Nat) : Nat :=
  let h1 := murmurBody 0 data
  let h2 := h1 ^^^ w32 data.length
  let h3 := h2 ^^^ h2 / 65536
  let h4 := w32 (h3 * 0x85ebca6b)
  let h5 := h4 ^^^ h4 / 8192
  let h6 := w32 (h5 * 0xc2b2ae35)
  h6 ^^^ h6 / 65536

/-! ### SHA-256 (FIPS 180-4), the `crypto/sha256` primitive -/

def sha256K : List Nat :=
  [1116352408, 1899447441, 3049323471, 3921009573, 961987163, 1508970993, 2453635748, 2870763221,
   3624381080, 310598401, 607225278, 1426881987, 1925078388, 2162078206, 2614888103, 3248222580,
   3835390401, 4022224774, 264347078, 604807628, 770255983, 1249150122, 1555081692, 1996064986,
   2554220882, 2821834349, 2952996808, 3210313671, 3336571891, 3584528711, 113926993, 338241895,
   666307205, 773529912, 1294757372, 1396182291, 1695183700, 1986661051, 2177026350, 2456956037,
   2730485921, 2820302411, 3259730800, 3345764771, 3516065817, 3600352804, 4094571909, 275423344,
   430227734, 506948616, 659060556, 883997877, 958139571, 1322822218, 1537002063, 1747873779,
   1955562222, 2024104815, 2227730452, 2361852424, 2428436474, 2756734187, 3204031479, 3329325298]

/-- Group a byte list into big-endian 32-bit words, four bytes per word. -/
def beWords4 : List Nat → List Nat
  | b0 :: b1 :: b2 :: b3 :: rest =>
      (b0 * 16777216 + b1 * 65536 + b2 * 256 + b3) :: beWords4 rest
  | _ => []

/-- Extend the reversed 16-word schedule to the reversed full schedule,
`i` words still to generate. -/
def sha256Extend (ws : List Nat) : Nat → List Nat
  | 0 => ws.reverse
  | i+1 =>
      forceNat (w32 ((rotr32 (ws.getD 1 0) 17 ^^^ rotr32 (ws.getD 1 0) 19 ^^^ ws.getD 1 0 / 1024) +
          ws.getD 6 0 +
          (rotr32 (ws.getD 14 0) 7 ^^^ rotr32 (ws.getD 14 0) 18 ^^^ ws.getD 14 0 / 8) +
          ws.getD 15 0)) fun w =>
      sha256Extend (w :: ws) i

/-- The 64 SHA-256 rounds over the paired constant/schedule words. -/
def sha256Rounds :
    List Nat → List Nat → Nat → Nat → Nat → Nat → Nat → Nat → Nat → Nat →
    Nat × Nat × Nat × Nat × Nat × Nat × Nat × Nat
  | k :: ks, w :: ws, a, b, c, d, e, f, g, h =>
      forceNat (w32 (h + (rotr32 e 6 ^^^ rotr32 e 11 ^^^ rotr32 e 25) +
          ((e &&& f) ^^^ ((e ^^^ 4294967295) &&& g)) + k + w)) fun t1 =>
      forceNat (w32 ((rotr32 a 2 ^^^ rotr32 a 13 ^^^ rotr32 a 22) +
          ((a &&& b) ^^^ (a &&& c) ^^^ (b &&& c)))) fun t2 =>
      forceNat (w32 (t1 + t2)) fun a2 =>
      forceNat (w32 (d + t1)) fun e2 =>
      sha256Rounds ks ws a2 a b c e2 e f g
  | _, _, a, b, c, d, e, f, g, h => (a, b, c, d, e, f, g, h)

/-- One SHA-256 compression over a 64-byte block. -/
def sha256Compress (st : Nat × Nat × Nat × Nat × Nat × Nat × Nat × Nat) (block : List Nat) :
    Nat × Nat × Nat × Nat × Nat × Nat × Nat × Nat :=
  let ws := sha256Extend (beWords4 block).reverse 48
  let r := sha256Rounds sha256K ws st.1 st.2.1 st.2.2.1 st.2.2.2.1 st.2.2.2.2.1
      st.2.2.2.2.2.1 st.2.2.2.2.2.2.1 st.2.2.2.2.2.2.2
  (w32 (st.1 + r.1), w32 (st.2.1 + r.2.1), w32 (st.2.2.1 + r.2.2.1),
   w32 (st.2.2.2.1 + r.2.2.2.1), w32 (st.2.2.2.2.1 + r.2.2.2.2.1),
   w32 (st.2.2.2.2.2.1 + r.2.2.2.2.2.1), w32 (st.2.2.2.2.2.2.1 + r.2.2.2.2.2.2.1),
   w32 (st.2.2.2.2.2.2.2 + r.2.2.2.2.2.2.2))

/-- Fold the compression over consecutive 64-byte blocks.  The first argument
is fuel bounding the number of blocks, so that the recursion is structural and
kernel-reducible; any fuel at least the byte count works. -/
def sha256Blocks : Nat → Nat × Nat × Nat × Nat × Nat × Nat × Nat × Nat → List Nat →
    Nat × Nat × Nat × Nat × Nat × Nat × Nat × Nat
  | _, st, [] => st
  | 0, st, _ => st
  | fuel+1, st, b :: rest =>
      sha256Blocks fuel (sha256Compress st ((b :: rest).take 64)) ((b :: rest).drop 64)

/-- Merkle–Damgård padding with a 64-bit big-endian bit length, to 64-byte blocks. -/
def sha256Pad (msg : List Nat) : List Nat :=
  msg ++ 0x80 :: List.replicate ((64 - (msg.length + 9) % 64) % 64) 0 ++ be64 (8 * msg.length)

/-- SHA-256 digest (32 bytes) of a byte sequence. -/
def sha256Hash (msg : List Nat) : List Nat :=
  let st := sha256Blocks (sha256Pad msg).length
    (0x6a09e667, 0xbb67ae85, 0x3c6ef372, 0xa54ff53a, 0x510e527f, 0x9b05688c, 0x1f83d9ab, 0x5be0cd19)
    (sha256Pad msg)
  be32 st.1 ++ be32 st.2.1 ++ be32 st.2.2.1 ++ be32 st.2.2.2.1 ++ be32 st.2.2.2.2.1 ++
    be32 st.2.2.2.2.2.1 ++ be32 st.2.2.2.2.2.2.1 ++ be32 st.2.2.2.2.2.2.2

/-! ### SHA-1 (FIPS 180-4), the `crypto/sha1` primitive -/

/-- Extend the reversed 16-word SHA-1 schedule, `i` words still to generate. -/
def sha1Extend (ws : List Nat) : Nat → List Nat
  | 0 => ws.reverse
  | i+1 =>
      forceNat (rotl32 (ws.getD 2 0 ^^^ ws.getD 7 0 ^^^ ws.getD 13 0 ^^^ ws.getD 15 0) 1) fun w =>
      sha1Extend (w :: ws) i

/-- The 80 SHA-1 rounds; `i` is the round index. -/
def sha1Rounds (i : Nat) :
    List Nat → Nat → Nat → Nat → Nat → Nat → Nat × Nat × Nat × Nat × Nat
  | [], a, b, c, d, e => (a, b, c, d, e)
  | w :: ws, a, b, c, d, e =>
      forceNat
        (if i < 20 then w32 (rotl32 a 5 + ((b &&& c) ^^^ ((b ^^^ 4294967295) &&& d)) + e + 0x5a827999 + w)
         else if i < 40 then w32 (rotl32 a 5 + (b ^^^ c ^^^ d) + e + 0x6ed9eba1 + w)
         else if i < 60 then w32 (rotl32 a 5 + ((b &&& c) ||| (b &&& d) ||| (c &&& d)) + e + 0x8f1bbcdc + w)
         else w32 (rotl32 a 5 + (b ^^^ c ^^^ d) + e + 0xca62c1d6 + w)) fun t =>
      forceNat (rotl32 b 30) fun c2 =>
      sha1Rounds (i+1) ws t a c2 c d

/-- One SHA-1 compression over a 64-byte block. -/
def sha1Compress (st : Nat × Nat × Nat × Nat × Nat) (block : List Nat) :
    Nat × Nat × Nat × Nat × Nat :=
  let ws := sha1Extend (beWords4 block).reverse 64
  let r := sha1Rounds 0 ws st.1 st.2.1 st.2.2.1 st.2.2.2.1 st.2.2.2.2
  (w32 (st.1 + r.1), w32 (st.2.1 + r.2.1), w32 (st.2.2.1 + r.2.2.1),
   w32 (st.2.2.2.1 + r.2.2.2.1), w32 (st.2.2.2.2 + r.2.2.2.2))

/-- Fold the SHA-1 compression over consecutive 64-byte blocks (fuel-bounded
structural recursion as in `sha256Blocks`). -/
def sha1Blocks : Nat → Nat × Nat × Nat × Nat × Nat → List Nat → Nat × Nat × Nat × Nat × Nat
  | _, st, [] => st
  | 0, st, _ => st
  | fuel+1, st, b :: rest =>
      sha1Blocks fuel (sha1Compress st ((b :: rest).take 64)) ((b :: rest).drop 64)

/-- SHA-1 digest (20 bytes) of a byte sequence. -/
def sha1Hash (msg : List Nat) : List Nat :=
  let st := sha1Blocks (sha256Pad msg).length
    (0x67452301, 0xefcdab89, 0x98badcfe, 0x10325476, 0xc3d2e1f0) (sha256Pad msg)
  be32 st.1 ++ be32 st.2.1 ++ be32 st.2.2.1 ++ be32 st.2.2.2.1 ++ be32 st.2.2.2.2

/-! ### SHA-512 (FIPS 180-4), the `crypto/sha512` primitive -/

def sha512K : List Nat :=
  [4794697086780616226, 8158064640168781261, 13096744586834688815, 16840607885511220156,
   4131703408338449720, 6480981068601479193, 10538285296894168987, 12329834152419229976,
   15566598209576043074, 1334009975649890238, 2608012711638119052, 6128411473006802146,
   8268148722764581231, 9286055187155687089, 11230858885718282805, 13951009754708518548,
   16472876342353939154, 17275323862435702243, 1135362057144423861, 2597628984639134821,
   3308224258029322869, 5365058923640841347, 6679025012923562964, 8573033837759648693,
   10970295158949994411, 12119686244451234320, 12683024718118986047, 13788192230050041572,
   14330467153632333762, 15395433587784984357, 489312712824947311, 1452737877330783856,
   2861767655752347644, 3322285676063803686, 5560940570517711597, 5996557281743188959,
   7280758554555802590, 8532644243296465576, 9350256976987008742, 10552545826968843579,
   11727347734174303076, 12113106623233404929, 14000437183269869457, 14369950271660146224,
   15101387698204529176, 15463397548674623760, 17586052441742319658, 1182934255886127544,
   1847814050463011016, 2177327727835720531, 2830643537854262169, 3796741975233480872,
   4115178125766777443, 5681478168544905931, 6601373596472566643, 7507060721942968483,
   8399075790359081724, 8693463985226723168, 9568029438360202098, 10144078919501101548,
   10430055236837252648, 11840083180663258601, 13761210420658862357, 14299343276471374635,
   14566680578165727644, 15097957966210449927, 16922976911328602910, 17689382322260857208,
   500013540394364858, 748580250866718886, 1242879168328830382, 1977374033974150939,
   2944078676154940804, 3659926193048069267, 4368137639120453308, 4836135668995329356,
   5532061633213252278, 6448918945643986474, 6902733635092675308, 7801388544844847127]

/-- Group a byte list into big-endian 64-bit words, eight bytes per word. -/
def beWords8 : List Nat → List Nat
  | b0 :: b1 :: b2 :: b3 :: b4 :: b5 :: b6 :: b7 :: rest =>
      (b0 * 72057594037927936 + b1 * 281474976710656 + b2 * 1099511627776 + b3 * 4294967296 +
        b4 * 16777216 + b5 * 65536 + b6 * 256 + b7) :: beWords8 rest
  | _ => []

/-- Extend the reversed 16-word SHA-512 schedule, `i` words still to generate. -/
def sha512Extend (ws : List Nat) : Nat → List Nat
  | 0 => ws.reverse
  | i+1 =>
      forceNat (w64 ((rotr64 (ws.getD 1 0) 19 ^^^ rotr64 (ws.getD 1 0) 61 ^^^ ws.getD 1 0 / 64) +
          ws.getD 6 0 +
          (rotr64 (ws.getD 14 0) 1 ^^^ rotr64 (ws.getD 14 0) 8 ^^^ ws.getD 14 0 / 128) +
          ws.getD 15 0)) fun w =>
      sha512Extend (w :: ws) i

/-- The 80 SHA-512 rounds over the paired constant/schedule words. -/
def sha512Rounds :
    List Nat → List Nat → Nat → Nat → Nat → Nat → Nat → Nat → Nat → Nat →
    Nat × Nat × Nat × Nat × Nat × Nat × Nat × Nat
  | k :: ks, w :: ws, a, b, c, d, e, f, g, h =>
      forceNat (w64 (h + (rotr64 e 14 ^^^ rotr64 e 18 ^^^ rotr64 e 41) +
          ((e &&& f) ^^^ ((e ^^^ 18446744073709551615) &&& g)) + k + w)) fun t1 =>
      forceNat (w64 ((rotr64 a 28 ^^^ rotr64 a 34 ^^^ rotr64 a 39) +
          ((a &&& b) ^^^ (a &&& c) ^^^ (b &&& c)))) fun t2 =>
      forceNat (w64 (t1 + t2)) fun a2 =>
      forceNat (w64 (d + t1)) fun e2 =>
      sha512Rounds ks ws a2 a b c e2 e f g
  | _, _, a, b, c, d, e, f, g, h => (a, b, c, d, e, f, g, h)

/-- One SHA-512 compression over a 128-byte block. -/
def sha512Compress (st : Nat × Nat × Nat × Nat × Nat × Nat × Nat × Nat) (block : List Nat) :
    Nat × Nat × Nat × Nat × Nat × Nat × Nat × Nat :=
  let ws := sha512Extend (beWords8 block).reverse 64
  let r := sha512Rounds sha512K ws st.1 st.2.1 st.2.2.1 st.2.2.2.1 st.2.2.2.2.1
      st.2.2.2.2.2.1 st.2.2.2.2.2.2.1 st.2.2.2.2.2.2.2
  (w64 (st.1 + r.1), w64 (st.2.1 + r.2.1), w64 (st.2.2.1 + r.2.2.1),
   w64 (st.2.2.2.1 + r.2.2.2.1), w64 (st.2.2.2.2.1 + r.2.2.2.2.1),
   w64 (st.2.2.2.2.2.1 + r.2.2.2.2.2.1), w64 (st.2.2.2.2.2.2.1 + r.2.2.2.2.2.2.1),
   w64 (st.2.2.2.2.2.2.2 + r.2.2.2.2.2.2.2))

/-- Fold the SHA-512 compression over consecutive 128-byte blocks (fuel-bounded
structural recursion as in `sha256Blocks`). -/
def sha512Blocks : Nat → Nat × Nat × Nat × Nat × Nat × Nat × Nat × Nat → List Nat →
    Nat × Nat × Nat × Nat × Nat × Nat × Nat × Nat
  | _, st, [] => st
  | 0, st, _ => st
  | fuel+1, st, b :: rest =>
      sha512Blocks fuel (sha512Compress st ((b :: rest).take 128)) ((b :: rest).drop 128)

/-- Merkle–Damgård padding with a 128-bit big-endian bit length, to 128-byte blocks. -/
def sha512Pad (msg : List Nat) : List Nat :=
  msg ++ 0x80 :: List.replicate ((128 - (msg.length + 17) % 128) % 128) 0 ++
    (List.replicate 8 0 ++ be64 (8 * msg.length))

/-- SHA-512 digest (64 bytes) of a byte sequence. -/
def sha512Hash (msg : List Nat) : List Nat :=
  let st := sha512Blocks (sha512Pad msg).length
    (0x6a09e667f3bcc908, 0xbb67ae8584caa73b, 0x3c6ef372fe94f82b, 0xa54ff53a5f1d36f1,
     0x510e527fade682d1, 0x9b05688c2b3e6c1f, 0x1f83d9abfb41bd6b, 0x5be0cd19137e2179)
    (sha512Pad msg)
  be64 st.1 ++ be64 st.2.1 ++ be64 st.2.2.1 ++ be64 st.2.2.2.1 ++ be64 st.2.2.2.2.1 ++
    be64 st.2.2.2.2.2.1 ++ be64 st.2.2.2.2.2.2.1 ++ be64 st.2.2.2.2.2.2.2

/-! ### Keccak-f[1600] sponge: the vendored keccakpg (legacy pad 0x01) and
sha3 (NIST pad 0x06) primitives -/

/-- Forces every lane of a state to a literal before passing it on; identity. -/
def forceLanes : List Nat → (List Nat → α) → α
  | [], k => k []
  | x :: xs, k => forceNat x fun x0 => forceLanes xs fun xs0 => k (x0 :: xs0)

theorem forceLanes_eq (xs : List Nat) (k : List Nat → α) : forceLanes xs k = k xs := by
  induction xs generalizing k with
  | nil => rfl
  | cons x xs ih => simp [forceLanes, forceNat_eq, ih]

/-- The θ step: column parities mixed into every lane. -/
def keccakTheta (s : List Nat) : List Nat :=
  forceNat (s.getD 0 0 ^^^ s.getD 5 0 ^^^ s.getD 10 0 ^^^ s.getD 15 0 ^^^ s.getD 20 0) fun c0 =>
  forceNat (s.getD 1 0 ^^^ s.getD 6 0 ^^^ s.getD 11 0 ^^^ s.getD 16 0 ^^^ s.getD 21 0) fun c1 =>
  forceNat (s.getD 2 0 ^^^ s.getD 7 0 ^^^ s.getD 12 0 ^^^ s.getD 17 0 ^^^ s.getD 22 0) fun c2 =>
  forceNat (s.getD 3 0 ^^^ s.getD 8 0 ^^^ s.getD 13 0 ^^^ s.getD 18 0 ^^^ s.getD 23 0) fun c3 =>
  forceNat (s.getD 4 0 ^^^ s.getD 9 0 ^^^ s.getD 14 0 ^^^ s.getD 19 0 ^^^ s.getD 24 0) fun c4 =>
  forceNat (c4 ^^^ rotl64 c1 1) fun d0 =>
  forceNat (c0 ^^^ rotl64 c2 1) fun d1 =>
  forceNat (c1 ^^^ rotl64 c3 1) fun d2 =>
  forceNat (c2 ^^^ rotl64 c4 1) fun d3 =>
  forceNat (c3 ^^^ rotl64 c0 1) fun d4 =>
  [s.getD 0 0 ^^^ d0,
   s.getD 1 0 ^^^ d1,
   s.getD 2 0 ^^^ d2,
   s.getD 3 0 ^^^ d3,
   s.getD 4 0 ^^^ d4,
   s.getD 5 0 ^^^ d0,
   s.getD 6 0 ^^^ d1,
   s.getD 7 0 ^^^ d2,
   s.getD 8 0 ^^^ d3,
   s.getD 9 0 ^^^ d4,
   s.getD 10 0 ^^^ d0,
   s.getD 11 0 ^^^ d1,
   s.getD 12 0 ^^^ d2,
   s.getD 13 0 ^^^ d3,
   s.getD 14 0 ^^^ d4,
   s.getD 15 0 ^^^ d0,
   s.getD 16 0 ^^^ d1,
   s.getD 17 0 ^^^ d2,
   s.getD 18 0 ^^^ d3,
   s.getD 19 0 ^^^ d4,
   s.getD 20 0 ^^^ d0,
   s.getD 21 0 ^^^ d1,
   s.getD 22 0 ^^^ d2,
   s.getD 23 0 ^^^ d3,
   s.getD 24 0 ^^^ d4]

/-- The ρ and π steps: rotate each lane and permute positions. -/
def keccakRhoPi (a : List Nat) : List Nat :=
  [a.getD 0 0,
   rotl64 (a.getD 6 0) 44,
   rotl64 (a.getD 12 0) 43,
   rotl64 (a.getD 18 0) 21,
   rotl64 (a.getD 24 0) 14,
   rotl64 (a.getD 3 0) 28,
   rotl64 (a.getD 9 0) 20,
   rotl64 (a.getD 10 0) 3,
   rotl64 (a.getD 16 0) 45,
   rotl64 (a.getD 22 0) 61,
   rotl64 (a.getD 1 0) 1,
   rotl64 (a.getD 7 0) 6,
   rotl64 (a.getD 13 0) 25,
   rotl64 (a.getD 19 0) 8,
   rotl64 (a.getD 20 0) 18,
   rotl64 (a.getD 4 0) 27,
   rotl64 (a.getD 5 0) 36,
   rotl64 (a.getD 11 0) 10,
   rotl64 (a.getD 17 0) 15,
   rotl64 (a.getD 23 0) 56,
   rotl64 (a.getD 2 0) 62,
   rotl64 (a.getD 8 0) 55,
   rotl64 (a.getD 14 0) 39,
   rotl64 (a.getD 15 0) 41,
   rotl64 (a.getD 21 0) 2]

/-- The χ step: the nonlinear row mixing. -/
def keccakChi (b : List Nat) : List Nat :=
  [b.getD 0 0 ^^^ ((b.getD 1 0 ^^^ 18446744073709551615) &&& b.getD 2 0),
   b.getD 1 0 ^^^ ((b.getD 2 0 ^^^ 18446744073709551615) &&& b.getD 3 0),
   b.getD 2 0 ^^^ ((b.getD 3 0 ^^^ 18446744073709551615) &&& b.getD 4 0),
   b.getD 3 0 ^^^ ((b.getD 4 0 ^^^ 18446744073709551615) &&& b.getD 0 0),
   b.getD 4 0 ^^^ ((b.getD 0 0 ^^^ 18446744073709551615) &&& b.getD 1 0),
   b.getD 5 0 ^^^ ((b.getD 6 0 ^^^ 18446744073709551615) &&& b.getD 7 0),
   b.getD 6 0 ^^^ ((b.getD 7 0 ^^^ 18446744073709551615) &&& b.getD 8 0),
   b.getD 7 0 ^^^ ((b.getD 8 0 ^^^ 18446744073709551615) &&& b.getD 9 0),
   b.getD 8 0 ^^^ ((b.getD 9 0 ^^^ 18446744073709551615) &&& b.getD 5 0),
   b.getD 9 0 ^^^ ((b.getD 5 0 ^^^ 18446744073709551615) &&& b.getD 6 0),
   b.getD 10 0 ^^^ ((b.getD 11 0 ^^^ 18446744073709551615) &&& b.getD 12 0),
   b.getD 11 0 ^^^ ((b.getD 12 0 ^^^ 18446744073709551615) &&& b.getD 13 0),
   b.getD 12 0 ^^^ ((b.getD 13 0 ^^^ 18446744073709551615) &&& b.getD 14 0),
   b.getD 13 0 ^^^ ((b.getD 14 0 ^^^ 18446744073709551615) &&& b.getD 10 0),
   b.getD 14 0 ^^^ ((b.getD 10 0 ^^^ 18446744073709551615) &&& b.getD 11 0),
   b.getD 15 0 ^^^ ((b.getD 16 0 ^^^ 18446744073709551615) &&& b.getD 17 0),
   b.getD 16 0 ^^^ ((b.getD 17 0 ^^^ 18446744073709551615) &&& b.getD 18 0),
   b.getD 17 0 ^^^ ((b.getD 18 0 ^^^ 18446744073709551615) &&& b.getD 19 0),
   b.getD 18 0 ^^^ ((b.getD 19 0 ^^^ 18446744073709551615) &&& b.getD 15 0),
   b.getD 19 0 ^^^ ((b.getD 15 0 ^^^ 18446744073709551615) &&& b.getD 16 0),
   b.getD 20 0 ^^^ ((b.getD 21 0 ^^^ 18446744073709551615) &&& b.getD 22 0),
   b.getD 21 0 ^^^ ((b.getD 22 0 ^^^ 18446744073709551615) &&& b.getD 23 0),
   b.getD 22 0 ^^^ ((b.getD 23 0 ^^^ 18446744073709551615) &&& b.getD 24 0),
   b.getD 23 0 ^^^ ((b.getD 24 0 ^^^ 18446744073709551615) &&& b.getD 20 0),
   b.getD 24 0 ^^^ ((b.getD 20 0 ^^^ 18446744073709551615) &&& b.getD 21 0)]

/-- One Keccak-f round (ι folds the round constant into lane 0). -/
def keccakRound (s : List Nat) (rc : Nat) : List Nat :=
  forceLanes (keccakTheta s) fun a =>
  forceLanes (keccakRhoPi a) fun b =>
  forceLanes (keccakChi b) fun c =>
  match c with
  | [] => []
  | x :: rest => (x ^^^ rc) :: rest

def keccakRC : List Nat :=
  [0x0000000000000001, 0x0000000000008082, 0x800000000000808a, 0x8000000080008000,
   0x000000000000808b, 0x0000000080000001, 0x8000000080008081, 0x8000000000008009,
   0x000000000000008a, 0x0000000000000088, 0x0000000080008009, 0x000000008000000a,
   0x000000008000808b, 0x800000000000008b, 0x8000000000008089, 0x8000000000008003,
   0x8000000000008002, 0x8000000000000080, 0x000000000000800a, 0x800000008000000a,
   0x8000000080008081, 0x8000000000008080, 0x0000000080000001, 0x8000000080008008]

/-- The full Keccak-f[1600] permutation: 24 rounds. -/
def keccakF (s : List Nat) : List Nat :=
  keccakRC.foldl keccakRound s

/-- Multi-rate padding with domain byte `ds` (0x01 legacy Keccak, 0x06 NIST SHA-3). -/
def keccakPad (rate ds : Nat) (msg : List Nat) : List Nat :=
  if rate - msg.length % rate = 1 then msg ++ [ds + 128]
  else msg ++ ds :: List.replicate (rate - msg.length % rate - 2) 0 ++ [128]

/-- Group a byte list into little-endian 64-bit words, eight bytes per word. -/
def leWords8 : List Nat → List Nat
  | b0 :: b1 :: b2 :: b3 :: b4 :: b5 :: b6 :: b7 :: rest =>
      (b0 + b1 * 256 + b2 * 65536 + b3 * 16777216 + b4 * 4294967296 +
        b5 * 1099511627776 + b6 * 281474976710656 + b7 * 72057594037927936) :: leWords8 rest
  | _ => []

/-- Split a byte list into chunks of `r1 + 1` bytes (fuel-bounded structural
recursion; any fuel at least the byte count works). -/
def chunksOf (r1 : Nat) : Nat → List Nat → List (List Nat)
  | _, [] => []
  | 0, _ => []
  | fuel+1, b :: rest =>
      ((b :: rest).take (r1+1)) :: chunksOf r1 fuel ((b :: rest).drop (r1+1))

/-- XOR a block (as words) into the first lanes of the state. -/
def keccakAbsorbBlock (s ws : List Nat) : List Nat :=
  [s.getD 0 0 ^^^ ws.getD 0 0,
   s.getD 1 0 ^^^ ws.getD 1 0,
   s.getD 2 0 ^^^ ws.getD 2 0,
   s.getD 3 0 ^^^ ws.getD 3 0,
   s.getD 4 0 ^^^ ws.getD 4 0,
   s.getD 5 0 ^^^ ws.getD 5 0,
   s.getD 6 0 ^^^ ws.getD 6 0,
   s.getD 7 0 ^^^ ws.getD 7 0,
   s.getD 8 0 ^^^ ws.getD 8 0,
   s.getD 9 0 ^^^ ws.getD 9 0,
   s.getD 10 0 ^^^ ws.getD 10 0,
   s.getD 11 0 ^^^ ws.getD 11 0,
   s.getD 12 0 ^^^ ws.getD 12 0,
   s.getD 13 0 ^^^ ws.getD 13 0,
   s.getD 14 0 ^^^ ws.getD 14 0,
   s.getD 15 0 ^^^ ws.getD 15 0,
   s.getD 16 0 ^^^ ws.getD 16 0,
   s.getD 17 0 ^^^ ws.getD 17 0,
   s.getD 18 0 ^^^ ws.getD 18 0,
   s.getD 19 0 ^^^ ws.getD 19 0,
   s.getD 20 0 ^^^ ws.getD 20 0,
   s.getD 21 0 ^^^ ws.getD 21 0,
   s.getD 22 0 ^^^ ws.getD 22 0,
   s.getD 23 0 ^^^ ws.getD 23 0,
   s.getD 24 0 ^^^ ws.getD 24 0]

/-- Absorb the whole padded message at the given rate. -/
def keccakAbsorb (rate ds : Nat) (msg : List Nat) : List Nat :=
  (chunksOf (rate - 1) (keccakPad rate ds msg).length (keccakPad rate ds msg)).foldl
    (fun st block => keccakF (keccakAbsorbBlock st (leWords8 block)))
    (List.replicate 25 0)

/-- The state serialized as 200 little-endian bytes. -/
def keccakStateBytes (s : List Nat) : List Nat :=
  le64 (s.getD 0 0) ++
    le64 (s.getD 1 0) ++
    le64 (s.getD 2 0) ++
    le64 (s.getD 3 0) ++
    le64 (s.getD 4 0) ++
    le64 (s.getD 5 0) ++
    le64 (s.getD 6 0) ++
    le64 (s.getD 7 0) ++
    le64 (s.getD 8 0) ++
    le64 (s.getD 9 0) ++
    le64 (s.getD 10 0) ++
    le64 (s.getD 11 0) ++
    le64 (s.getD 12 0) ++
    le64 (s.getD 13 0) ++
    le64 (s.getD 14 0) ++
    le64 (s.getD 15 0) ++
    le64 (s.getD 16 0) ++
    le64 (s.getD 17 0) ++
    le64 (s.getD 18 0) ++
    le64 (s.getD 19 0) ++
    le64 (s.getD 20 0) ++
    le64 (s.getD 21 0) ++
    le64 (s.getD 22 0) ++
    le64 (s.getD 23 0) ++
    le64 (s.getD 24 0)

/-- A Keccak-family digest: `n` output bytes at byte rate `rate`, domain `ds`
(single squeeze suffices for every digest size used here). -/
def keccakHash (n rate ds : Nat) (msg : List Nat) : List Nat :=
  (keccakStateBytes (keccakAbsorb rate ds msg)).take n

def keccak224 (msg : List Nat) : List Nat := keccakHash 28 144 1 msg
def keccak256 (msg : List Nat) : List Nat := keccakHash 32 136 1 msg
def keccak384 (msg : List Nat) : List Nat := keccakHash 48 104 1 msg
def keccak512 (msg : List Nat) : List Nat := keccakHash 64 72 1 msg
def sha3_512Hash (msg : List Nat) : List Nat := keccakHash 64 72 6 msg

/-! ### BLAKE2s and BLAKE2b (RFC 7693), the vendored go-crypto primitives -/

def blake2Sigma : List (List Nat) :=
  [[0, 1, 2, 3, 4, 5, 6, 7, 8, 9, 10, 11, 12, 13, 14, 15],
   [14, 10, 4, 8, 9, 15, 13, 6, 1, 12, 0, 2, 11, 7, 5, 3],
   [11, 8, 12, 0, 5, 2, 15, 13, 10, 14, 3, 6, 7, 1, 9, 4],
   [7, 9, 3, 1, 13, 12, 11, 14, 2, 6, 5, 10, 4, 0, 15, 8],
   [9, 0, 5, 7, 2, 4, 10, 15, 14, 1, 11, 12, 6, 8, 3, 13],
   [2, 12, 6, 10, 0, 11, 8, 3, 4, 13, 7, 5, 15, 14, 1, 9],
   [12, 5, 1, 15, 14, 13, 4, 10, 0, 7, 6, 3, 9, 2, 8, 11],
   [13, 11, 7, 14, 12, 1, 3, 9, 5, 0, 15, 4, 8, 6, 2, 10],
   [6, 15, 14, 9, 11, 3, 0, 8, 12, 2, 13, 7, 1, 4, 10, 5],
   [10, 2, 8, 4, 7, 6, 1, 5, 15, 11, 9, 14, 3, 12, 13, 0]]

/-- Group a byte list into little-endian 32-bit words, four bytes per word. -/
def leWords4 : List Nat → List Nat
  | b0 :: b1 :: b2 :: b3 :: rest =>
      (b0 + b1 * 256 + b2 * 65536 + b3 * 16777216) :: leWords4 rest
  | _ => []

/-- The BLAKE2s G mixing function on working-vector indices `a b c d`. -/
def g2s (v : List Nat) (a b c d x y : Nat) : List Nat :=
  forceNat (w32 (v.getD a 0 + v.getD b 0 + x)) fun va =>
  forceNat (rotr32 (v.getD d 0 ^^^ va) 16) fun vd =>
  forceNat (w32 (v.getD c 0 + vd)) fun vc =>
  forceNat (rotr32 (v.getD b 0 ^^^ vc) 12) fun vb =>
  forceNat (w32 (va + vb + y)) fun va2 =>
  forceNat (rotr32 (vd ^^^ va2) 8) fun vd2 =>
  forceNat (w32 (vc + vd2)) fun vc2 =>
  forceNat (rotr32 (vb ^^^ vc2) 7) fun vb2 =>
  ((((v.set a va2).set b vb2).set c vc2).set d vd2)

/-- One BLAKE2s round under one sigma row. -/
def blake2sRound (m : List Nat) (v : List Nat) (s : List Nat) : List Nat :=
  let mi := fun i => m.getD (s.getD i 0) 0
  let v1 := g2s v 0 4 8 12 (mi 0) (mi 1)
  let v2 := g2s v1 1 5 9 13 (mi 2) (mi 3)
  let v3 := g2s v2 2 6 10 14 (mi 4) (mi 5)
  let v4 := g2s v3 3 7 11 15 (mi 6) (mi 7)
  let v5 := g2s v4 0 5 10 15 (mi 8) (mi 9)
  let v6 := g2s v5 1 6 11 12 (mi 10) (mi 11)
  let v7 := g2s v6 2 7 8 13 (mi 12) (mi 13)
  g2s v7 3 4 9 14 (mi 14) (mi 15)

def blake2sIV : List Nat :=
  [0x6a09e667, 0xbb67ae85, 0x3c6ef372, 0xa54ff53a, 0x510e527f, 0x9b05688c, 0x1f83d9ab, 0x5be0cd19]

/-- BLAKE2s compression: state `h`, one 64-byte block, byte counter `t`, final flag. -/
def blake2sCompress (h : List Nat) (block : List Nat) (t : Nat) (f : Bool) : List Nat :=
  let m := leWords4 block
  let v0 := h ++ blake2sIV
  let v1 := (v0.set 12 (v0.getD 12 0 ^^^ w32 t)).set 13 (v0.getD 13 0 ^^^ t / 4294967296)
  let v2 := if f then v1.set 14 (v1.getD 14 0 ^^^ 4294967295) else v1
  let v := blake2Sigma.foldl (blake2sRound m) v2
  [h.getD 0 0 ^^^ v.getD 0 0 ^^^ v.getD 8 0,
   h.getD 1 0 ^^^ v.getD 1 0 ^^^ v.getD 9 0,
   h.getD 2 0 ^^^ v.getD 2 0 ^^^ v.getD 10 0,
   h.getD 3 0 ^^^ v.getD 3 0 ^^^ v.getD 11 0,
   h.getD 4 0 ^^^ v.getD 4 0 ^^^ v.getD 12 0,
   h.getD 5 0 ^^^ v.getD 5 0 ^^^ v.getD 13 0,
   h.getD 6 0 ^^^ v.getD 6 0 ^^^ v.getD 14 0,
   h.getD 7 0 ^^^ v.getD 7 0 ^^^ v.getD 15 0]

/-- Feed the message through the BLAKE2s compression; `t0` bytes came before
(fuel-bounded structural recursion; any fuel at least the byte count works). -/
def blake2sLoop : Nat → List Nat → Nat → List Nat → List Nat
  | 0, h, t0, msg =>
      forceLanes (blake2sCompress h (msg ++ List.replicate (64 - msg.length) 0) (t0 + msg.length) true) id
  | fuel+1, h, t0, msg =>
      if msg.length ≤ 64 then
        forceLanes (blake2sCompress h (msg ++ List.replicate (64 - msg.length) 0) (t0 + msg.length) true) id
      else
        blake2sLoop fuel (forceLanes (blake2sCompress h (msg.take 64) (t0 + 64) false) id) (t0 + 64) (msg.drop 64)

/-- BLAKE2s-256 digest (32 bytes, no key), `blake2s.Sum256`. -/
def blake2s256 (msg : List Nat) : List Nat :=
  let h0 := blake2sLoop msg.length (blake2sIV.set 0 (blake2sIV.getD 0 0 ^^^ 0x01010020)) 0 msg
  le32 (h0.getD 0 0) ++ le32 (h0.getD 1 0) ++ le32 (h0.getD 2 0) ++ le32 (h0.getD 3 0) ++
    le32 (h0.getD 4 0) ++ le32 (h0.getD 5 0) ++ le32 (h0.getD 6 0) ++ le32 (h0.getD 7 0)

/-- The BLAKE2b G mixing function on working-vector indices `a b c d`. -/
def g2b (v : List Nat) (a b c d x y : Nat) : List Nat :=
  forceNat (w64 (v.getD a 0 + v.getD b 0 + x)) fun va =>
  forceNat (rotr64 (v.getD d 0 ^^^ va) 32) fun vd =>
  forceNat (w64 (v.getD c 0 + vd)) fun vc =>
  forceNat (rotr64 (v.getD b 0 ^^^ vc) 24) fun vb =>
  forceNat (w64 (va + vb + y)) fun va2 =>
  forceNat (rotr64 (vd ^^^ va2) 16) fun vd2 =>
  forceNat (w64 (vc + vd2)) fun vc2 =>
  forceNat (rotr64 (vb ^^^ vc2) 63) fun vb2 =>
  ((((v.set a va2).set b vb2).set c vc2).set d vd2)

/-- One BLAKE2b round under one sigma row. -/
def blake2bRound (m : List Nat) (v : List Nat) (s : List Nat) : List Nat :=
  let mi := fun i => m.getD (s.getD i 0) 0
  let v1 := g2b v 0 4 8 12 (mi 0) (mi 1)
  let v2 := g2b v1 1 5 9 13 (mi 2) (mi 3)
  let v3 := g2b v2 2 6 10 14 (mi 4) (mi 5)
  let v4 := g2b v3 3 7 11 15 (mi 6) (mi 7)
  let v5 := g2b v4 0 5 10 15 (mi 8) (mi 9)
  let v6 := g2b v5 1 6 11 12 (mi 10) (mi 11)
  let v7 := g2b v6 2 7 8 13 (mi 12) (mi 13)
  g2b v7 3 4 9 14 (mi 14) (mi 15)

def blake2bIV : List Nat :=
  [0x6a09e667f3bcc908, 0xbb67ae8584caa73b, 0x3c6ef372fe94f82b, 0xa54ff53a5f1d36f1,
   0x510e527fade682d1, 0x9b05688c2b3e6c1f, 0x1f83d9abfb41bd6b, 0x5be0cd19137e2179]

/-- BLAKE2b compression: state `h`, one 128-byte block, byte counter `t`, final flag. -/
def blake2bCompress (h : List Nat) (block : List Nat) (t : Nat) (f : Bool) : List Nat :=
  let m := leWords8 block
  let v0 := h ++ blake2bIV
  let v1 := (v0.set 12 (v0.getD 12 0 ^^^ w64 t)).set 13 (v0.getD 13 0 ^^^ t / 18446744073709551616)
  let v2 := if f then v1.set 14 (v1.getD 14 0 ^^^ 18446744073709551615) else v1
  let v := (blake2Sigma ++ blake2Sigma.take 2).foldl (blake2bRound m) v2
  [h.getD 0 0 ^^^ v.getD 0 0 ^^^ v.getD 8 0,
   h.getD 1 0 ^^^ v.getD 1 0 ^^^ v.getD 9 0,
   h.getD 2 0 ^^^ v.getD 2 0 ^^^ v.getD 10 0,
   h.getD 3 0 ^^^ v.getD 3 0 ^^^ v.getD 11 0,
   h.getD 4 0 ^^^ v.getD 4 0 ^^^ v.getD 12 0,
   h.getD 5 0 ^^^ v.getD 5 0 ^^^ v.getD 13 0,
   h.getD 6 0 ^^^ v.getD 6 0 ^^^ v.getD 14 0,
   h.getD 7 0 ^^^ v.getD 7 0 ^^^ v.getD 15 0]

/-- Feed the message through the BLAKE2b compression; `t0` bytes came before
(fuel-bounded structural recursion; any fuel at least the byte count works). -/
def blake2bLoop : Nat → List Nat → Nat → List Nat → List Nat
  | 0, h, t0, msg =>
      forceLanes (blake2bCompress h (msg ++ List.replicate (128 - msg.length) 0) (t0 + msg.length) true) id
  | fuel+1, h, t0, msg =>
      if msg.length ≤ 128 then
        forceLanes (blake2bCompress h (msg ++ List.replicate (128 - msg.length) 0) (t0 + msg.length) true) id
      else
        blake2bLoop fuel (forceLanes (blake2bCompress h (msg.take 128) (t0 + 128) false) id) (t0 + 128) (msg.drop 128)

/-- BLAKE2b digest of `outlen` bytes (no key): `blake2b.Sum256/Sum384/Sum512`. -/
def blake2bHash (outlen : Nat) (msg : List Nat) : List Nat :=
  let h0 := blake2bLoop msg.length (blake2bIV.set 0 (blake2bIV.getD 0 0 ^^^ (0x01010000 + outlen))) 0 msg
  (le64 (h0.getD 0 0) ++ le64 (h0.getD 1 0) ++ le64 (h0.getD 2 0) ++ le64 (h0.getD 3 0) ++
    le64 (h0.getD 4 0) ++ le64 (h0.getD 5 0) ++ le64 (h0.getD 6 0) ++ le64 (h0.getD 7 0)).take outlen

/-! ### Algorithm registry

Modelled from the spec: the registry source file (table.go) is not among the
given sources — only sum.go is — so the registry here follows spec §2–§4.1:
a static table of fixed single-purpose codes plus two contiguous family
ranges, each fixed summable code carrying its canonical digest length, and
family codes deriving their length from the offset inside their range.  The
fixed codes and both family ranges are exactly the ones sum.go dispatches
on, with the canonical multihash numbering sum.go references by name. -/

def SHA1 : Nat := 0x11
def SHA2_256 : Nat := 0x12
def SHA2_512 : Nat := 0x13
def SHA3 : Nat := 0x14
def KECCAK_224 : Nat := 0x1a
def KECCAK_256 : Nat := 0x1b
def KECCAK_384 : Nat := 0x1c
def KECCAK_512 : Nat := 0x1d
def MURMUR3 : Nat := 0x22
def DBL_SHA2_256 : Nat := 0x56
def BLAKE2B_MIN : Nat := 0xb201
def BLAKE2B_MAX : Nat := 0xb240
def BLAKE2S_MIN : Nat := 0xb241
def BLAKE2S_MAX : Nat := 0xb260

def isBlake2s (code : Nat) : Bool :=
  decide (BLAKE2S_MIN ≤ code) && decide (code ≤ BLAKE2S_MAX)

def isBlake2b (code : Nat) : Bool :=
  decide (BLAKE2B_MIN ≤ code) && decide (code ≤ BLAKE2B_MAX)

def fixedCodes : List Nat :=
  [SHA1, SHA2_256, SHA2_512, SHA3, KECCAK_224, KECCAK_256, KECCAK_384, KECCAK_512,
   MURMUR3, DBL_SHA2_256]

/-- Modelled from the spec (§4.1): a code is valid iff it is a known fixed
code or lies inside a known family range (inclusive bounds). -/
def ValidCode (code : Nat) : Bool :=
  decide (code ∈ fixedCodes) || isBlake2s code || isBlake2b code

/-- Modelled from the spec (§3, §4.1): canonical digest length per fixed code;
family codes derive their length from their position in the range. -/
def DefaultLengths (code : Nat) : Option Int :=
  if isBlake2s code then some ((code : Int) - BLAKE2S_MIN + 1)
  else if isBlake2b code then some ((code : Int) - BLAKE2B_MIN + 1)
  else if code = SHA1 then some 20
  else if code = SHA2_256 then some 32
  else if code = SHA2_512 then some 64
  else if code = SHA3 then some 64
  else if code = KECCAK_224 then some 28
  else if code = KECCAK_256 then some 32
  else if code = KECCAK_384 then some 48
  else if code = KECCAK_512 then some 64
  else if code = MURMUR3 then some 4
  else if code = DBL_SHA2_256 then some 32
  else none

/-! ### Identifier codec

Modelled from the spec: the codec source file is not among the given sources,
so `Encode`/`Decode` follow spec §4.3/§6 — varint code, varint length, digest
bytes; `Encode` checks the declared length against the digest
(InconsistentLength), `Decode` is all-or-nothing with Truncated /
TrailingData / MalformedVarint failures. -/

inductive CodecErr
  | inconsistentLength
  | truncated
  | trailingData
  | malformedVarint
deriving DecidableEq

/-- Unsigned LEB128, fuel-bounded so the recursion is structural and
kernel-reducible; `uvarint` supplies sufficient fuel. -/
def uvarintAux : Nat → Nat → List Nat
  | 0, n => [n]
  | fuel+1, n => if n < 128 then [n] else (n % 128 + 128) :: uvarintAux fuel (n / 128)

/-- Unsigned LEB128 (base-128 little-endian with continuation bit). -/
def uvarint (n : Nat) : List Nat := uvarintAux n n

def EncodeRaw (digest : List Nat) (code : Nat) : List Nat :=
  uvarint code ++ uvarint digest.length ++ digest

def Encode (digest : List Nat) (code : Nat) (length : Nat) : Except CodecErr (List Nat) :=
  if length = digest.length then .ok (EncodeRaw digest code) else .error .inconsistentLength

def readUvarint : List Nat → Except CodecErr (Nat × List Nat)
  | [] => .error .malformedVarint
  | b :: rest =>
    if b < 128 then .ok (b, rest)
    else
      match readUvarint rest with
      | .ok (n, rest2) => .ok (b % 128 + n * 128, rest2)
      | .error e => .error e

def Decode (buf : List Nat) : Except CodecErr (Nat × Nat × List Nat) :=
  match readUvarint buf with
  | .error e => .error e
  | .ok (code, rest) =>
    match readUvarint rest with
    | .error e => .error e
    | .ok (len, rest2) =>
      if rest2.length < len then .error .truncated
      else if len < rest2.length then .error .trailingData
      else .ok (code, len, rest2)

/-! ### The digest computer: `Sum` from sum.go -/

/-- The failure modes of `Sum` (sum.go).  `sliceBoundsPanic` is not an error
value the Go function returns: it marks the runtime panic of the final
`d[0:length]` slice expression when `length` exceeds the digest length. -/
inductive SumErr
  | invalidCode (code : Nat)
  | noDefaultLength (code : Nat)
  | unsupportedBlake2sLength (olen : Nat)
  | unsupportedBlake2bLength (olen : Nat)
  | sumNotSupported
  | sliceBoundsPanic
deriving DecidableEq

def sumSHA1 (data : List Nat) : List Nat := sha1Hash data

def sumSHA256 (data : List Nat) : List Nat := sha256Hash data

def sumSHA512 (data : List Nat) : List Nat := sha512Hash data

def sumKeccak224 (data : List Nat) : List Nat := keccak224 data

def sumKeccak256 (data : List Nat) : List Nat := keccak256 data

def sumKeccak384 (data : List Nat) : List Nat := keccak384 data

def sumKeccak512 (data : List Nat) : List Nat := keccak512 data

def sumSHA3 (data : List Nat) : Except SumErr (List Nat) := .ok (sha3_512Hash data)

def leBytesLoop : Nat → Nat → List Nat
  | 0, _ => []
  | i+1, n => n % 256 :: leBytesLoop i (n / 256)

def sumMURMUR3 (data : List Nat) : Except SumErr (List Nat) :=
  .ok (leBytesLoop 4 (murmur3Sum32 data))

/-- The dispatch switch of `Sum` (sum.go lines 38–90): families first by
range, then fixed codes; the selected primitive never depends on the
requested length. -/
def sumDispatch (data : List Nat) (code : Nat) : Except SumErr (List Nat) :=
  if isBlake2s code then
    if code - BLAKE2S_MIN + 1 = 32 then .ok (blake2s256 data)
    else .error (.unsupportedBlake2sLength (code - BLAKE2S_MIN + 1))
  else if isBlake2b code then
    if code - BLAKE2B_MIN + 1 = 32 then .ok (blake2bHash 32 data)
    else if code - BLAKE2B_MIN + 1 = 48 then .ok (blake2bHash 48 data)
    else if code - BLAKE2B_MIN + 1 = 64 then .ok (blake2bHash 64 data)
    else .error (.unsupportedBlake2bLength (code - BLAKE2B_MIN + 1))
  else if code = SHA1 then .ok (sumSHA1 data)
  else if code = SHA2_256 then .ok (sumSHA256 data)
  else if code = SHA2_512 then .ok (sumSHA512 data)
  else if code = KECCAK_224 then .ok (sumKeccak224 data)
  else if code = KECCAK_256 then .ok (sumKeccak256 data)
  else if code = KECCAK_384 then .ok (sumKeccak384 data)
  else if code = KECCAK_512 then .ok (sumKeccak512 data)
  else if code = SHA3 then sumSHA3 data
  else if code = DBL_SHA2_256 then .ok (sumSHA256 (sumSHA256 data))
  else if code = MURMUR3 then sumMURMUR3 data
  else .error .sumNotSupported

/-- Length resolution of `Sum` (sum.go lines 30–36): a negative length is the
use-default sentinel, looked up in the default-length table. -/
def resolveLength (defaults : Nat → Option Int) (code : Nat) (length : Int) :
    Except SumErr Int :=
  if length < 0 then
    match defaults code with
    | some l => .ok l
    | none => .error (.noDefaultLength code)
  else .ok length

/-- The digest part of `Sum` (sum.go lines 23–93), parameterized by the
default-length table: validate the code, resolve the length, dispatch, then
slice `d[0:length]` (out-of-range slicing is a Go runtime panic, recorded as
`sliceBoundsPanic`). -/
def sumDigestWith (defaults : Nat → Option Int) (data : List Nat) (code : Nat)
    (length : Int) : Except SumErr (List Nat) :=
  if ValidCode code then
    match resolveLength defaults code length with
    | .error e => .error e
    | .ok len =>
      match sumDispatch data code with
      | .error e => .error e
      | .ok d =>
        if 0 ≤ len ∧ len ≤ (d.length : Int) then .ok (d.take len.toNat)
        else .error .sliceBoundsPanic
  else .error (.invalidCode code)

def SumWith (defaults : Nat → Option Int) (data : List Nat) (code : Nat)
    (length : Int) : Except SumErr (List Nat) :=
  (sumDigestWith defaults data code length).map (fun dg => EncodeRaw dg code)

def sumDigest (data : List Nat) (code : Nat) (length : Int) : Except SumErr (List Nat) :=
  sumDigestWith DefaultLengths data code length

/-- `Sum` from sum.go: digest computation followed by `Encode(d[0:length],
code)` (the final line 93 of the function). -/
def Sum (data : List Nat) (code : Nat) (length : Int) : Except SumErr (List Nat) :=
  SumWith DefaultLengths data code length

deriving instance DecidableEq for Except



/-! ### Digest length facts -/

theorem sha256Hash_length (msg : List Nat) : (sha256Hash msg).length = 32 := by
  simp only [sha256Hash, be32, List.length_append, List.length_cons, List.length_nil]

theorem sha1Hash_length (msg : List Nat) : (sha1Hash msg).length = 20 := by
  simp only [sha1Hash, be32, List.length_append, List.length_cons, List.length_nil]

theorem sha512Hash_length (msg : List Nat) : (sha512Hash msg).length = 64 := by
  simp only [sha512Hash, be64, List.length_append, List.length_cons, List.length_nil]

theorem keccakStateBytes_length (s : List Nat) : (keccakStateBytes s).length = 200 := by
  simp only [keccakStateBytes, le64, List.length_append, List.length_cons, List.length_nil]

theorem keccakHash_length (n rate ds : Nat) (msg : List Nat) (h : n ≤ 200) :
    (keccakHash n rate ds msg).length = n := by
  simp [keccakHash, keccakStateBytes_length]
  omega

theorem keccak224_length (msg : List Nat) : (keccak224 msg).length = 28 := by
  rw [keccak224]
  exact keccakHash_length 28 144 1 msg (by omega)

theorem keccak256_length (msg : List Nat) : (keccak256 msg).length = 32 := by
  rw [keccak256]
  exact keccakHash_length 32 136 1 msg (by omega)

theorem keccak384_length (msg : List Nat) : (keccak384 msg).length = 48 := by
  rw [keccak384]
  exact keccakHash_length 48 104 1 msg (by omega)

theorem keccak512_length (msg : List Nat) : (keccak512 msg).length = 64 := by
  rw [keccak512]
  exact keccakHash_length 64 72 1 msg (by omega)

theorem sha3_512Hash_length (msg : List Nat) : (sha3_512Hash msg).length = 64 := by
  rw [sha3_512Hash]
  exact keccakHash_length 64 72 6 msg (by omega)

theorem blake2s256_length (msg : List Nat) : (blake2s256 msg).length = 32 := by
  simp only [blake2s256, le32, List.length_append, List.length_cons, List.length_nil]

theorem blake2bHash_length (outlen : Nat) (msg : List Nat) (h : outlen ≤ 64) :
    (blake2bHash outlen msg).length = outlen := by
  simp only [blake2bHash, le64, List.length_take, List.length_append, List.length_cons,
    List.length_nil]
  omega

theorem leBytesLoop4_length (n : Nat) : (leBytesLoop 4 n).length = 4 := rfl

/-! ### Varint round-trip -/

theorem uvarintAux_congr :
    ∀ f1 n, n ≤ f1 → ∀ f2, n ≤ f2 → uvarintAux f1 n = uvarintAux f2 n := by
  intro f1
  induction f1 with
  | zero =>
    intro n hn f2 _
    have hn0 : n = 0 := by omega
    subst hn0
    cases f2 <;> simp [uvarintAux]
  | succ f ih =>
    intro n hn f2 hn2
    cases f2 with
    | zero =>
      have hn0 : n = 0 := by omega
      subst hn0
      simp [uvarintAux]
    | succ f2 =>
      by_cases h : n < 128
      · simp [uvarintAux, h]
      · have hdiv : n / 128 < n := Nat.div_lt_self (by omega) (by omega)
        simp only [uvarintAux, if_neg h, List.cons.injEq, true_and]
        exact ih (n / 128) (by omega) f2 (by omega)

theorem uvarint_eq (n : Nat) :
    uvarint n = if n < 128 then [n] else (n % 128 + 128) :: uvarint (n / 128) := by
  by_cases h : n < 128
  · rw [if_pos h]
    unfold uvarint
    cases n <;> simp [uvarintAux, h]
  · rw [if_neg h]
    unfold uvarint
    obtain ⟨m, rfl⟩ : ∃ m, n = m + 1 := ⟨n - 1, by omega⟩
    simp only [uvarintAux, if_neg h, List.cons.injEq, true_and]
    have hdiv : (m + 1) / 128 < m + 1 := Nat.div_lt_self (by omega) (by omega)
    exact uvarintAux_congr m ((m + 1) / 128) (by omega) ((m + 1) / 128) (by omega)

theorem readUvarint_uvarint (n : Nat) (rest : List Nat) :
    readUvarint (uvarint n ++ rest) = .ok (n, rest) := by
  induction n using Nat.strong_induction_on generalizing rest with
  | _ n ih =>
    rw [uvarint_eq]
    by_cases h : n < 128
    · simp [readUvarint, h]
    · rw [if_neg h]
      simp only [List.cons_append, readUvarint]
      rw [if_neg (show ¬n % 128 + 128 < 128 by omega)]
      simp only [List.append_eq]
      rw [ih (n / 128) (Nat.div_lt_self (by omega) (by omega)) rest]
      have hval : (n % 128 + 128) % 128 + n / 128 * 128 = n := by omega
      show Except.ok ((n % 128 + 128) % 128 + n / 128 * 128, rest) = Except.ok (n, rest)
      rw [hval]

/-! ### Computation shape of the digest computer -/

theorem sumDigestWith_ok (defaults : Nat → Option Int) (data : List Nat) (code : Nat)
    (length l : Int) (d : List Nat)
    (hv : ValidCode code = true)
    (hr : resolveLength defaults code length = .ok l)
    (hd : sumDispatch data code = .ok d)
    (h0 : 0 ≤ l) (hl : l ≤ (d.length : Int)) :
    sumDigestWith defaults data code length = .ok (d.take l.toNat) := by
  unfold sumDigestWith
  rw [hv, hr, hd]
  simp only [if_pos (And.intro h0 hl), if_true]

theorem sumDigestWith_invalid (defaults : Nat → Option Int) (data : List Nat) (code : Nat)
    (length : Int) (hv : ValidCode code = false) :
    sumDigestWith defaults data code length = .error (.invalidCode code) := by
  unfold sumDigestWith
  rw [hv]
  simp

theorem sumDigestWith_noDefault (defaults : Nat → Option Int) (data : List Nat) (code : Nat)
    (length : Int) (hv : ValidCode code = true) (hneg : length < 0)
    (hn : defaults code = none) :
    sumDigestWith defaults data code length = .error (.noDefaultLength code) := by
  unfold sumDigestWith
  rw [hv]
  simp only [resolveLength, if_pos hneg, hn, if_true]

theorem sumDigestWith_dispatch_error (defaults : Nat → Option Int) (data : List Nat)
    (code : Nat) (length l : Int) (e : SumErr)
    (hv : ValidCode code = true)
    (hr : resolveLength defaults code length = .ok l)
    (hd : sumDispatch data code = .error e) :
    sumDigestWith defaults data code length = .error e := by
  unfold sumDigestWith
  rw [hv, hr, hd]
  simp

theorem sumDigestWith_panic (defaults : Nat → Option Int) (data : List Nat) (code : Nat)
    (length l : Int) (d : List Nat)
    (hv : ValidCode code = true)
    (hr : resolveLength defaults code length = .ok l)
    (hd : sumDispatch data code = .ok d)
    (h : ¬(0 ≤ l ∧ l ≤ (d.length : Int))) :
    sumDigestWith defaults data code length = .error .sliceBoundsPanic := by
  unfold sumDigestWith
  rw [hv, hr, hd]
  simp only [if_neg h, if_true]

theorem resolveLength_nonneg (defaults : Nat → Option Int) (code : Nat) (l : Int)
    (h : 0 ≤ l) : resolveLength defaults code l = .ok l := by
  unfold resolveLength
  rw [if_neg (by omega)]

theorem resolveLength_sentinel (defaults : Nat → Option Int) (code : Nat)
    (length l : Int) (hneg : length < 0) (hd : defaults code = some l) :
    resolveLength defaults code length = .ok l := by
  unfold resolveLength
  rw [if_pos hneg, hd]

/-! ### Registry and dispatch facts -/

theorem isBlake2s_iff (c : Nat) : isBlake2s c = true ↔ 45633 ≤ c ∧ c ≤ 45664 := by
  simp [isBlake2s, BLAKE2S_MIN, BLAKE2S_MAX]

theorem isBlake2b_iff (c : Nat) : isBlake2b c = true ↔ 45569 ≤ c ∧ c ≤ 45632 := by
  simp [isBlake2b, BLAKE2B_MIN, BLAKE2B_MAX]

theorem not_blake2s_of_blake2b (c : Nat) (h : isBlake2b c = true) : isBlake2s c = false := by
  rw [isBlake2b_iff] at h
  rw [Bool.eq_false_iff]
  intro hs
  rw [isBlake2s_iff] at hs
  omega

theorem not_blake2b_of_blake2s (c : Nat) (h : isBlake2s c = true) : isBlake2b c = false := by
  rw [isBlake2s_iff] at h
  rw [Bool.eq_false_iff]
  intro hb
  rw [isBlake2b_iff] at hb
  omega

theorem validCode_family (c : Nat) (h : isBlake2s c = true ∨ isBlake2b c = true) :
    ValidCode c = true := by
  rcases h with h | h <;> simp [ValidCode, h]

theorem validCode_cases (c : Nat) (h : ValidCode c = true) :
    c ∈ fixedCodes ∨ isBlake2s c = true ∨ isBlake2b c = true := by
  simp only [ValidCode, Bool.or_eq_true, decide_eq_true_eq] at h
  tauto

theorem defaultLengths_blake2s (c : Nat) (h : isBlake2s c = true) :
    DefaultLengths c = some ((c : Int) - BLAKE2S_MIN + 1) := by
  simp [DefaultLengths, h]

theorem defaultLengths_blake2b (c : Nat) (h : isBlake2b c = true) :
    DefaultLengths c = some ((c : Int) - BLAKE2B_MIN + 1) := by
  simp [DefaultLengths, not_blake2s_of_blake2b c h, h]

theorem blake2s_olen_cast (c : Nat) (h : isBlake2s c = true) :
    (c : Int) - BLAKE2S_MIN + 1 = ((c - BLAKE2S_MIN + 1 : Nat) : Int) := by
  rw [isBlake2s_iff] at h
  simp only [BLAKE2S_MIN]
  push_cast
  omega

theorem blake2b_olen_cast (c : Nat) (h : isBlake2b c = true) :
    (c : Int) - BLAKE2B_MIN + 1 = ((c - BLAKE2B_MIN + 1 : Nat) : Int) := by
  rw [isBlake2b_iff] at h
  simp only [BLAKE2B_MIN]
  push_cast
  omega

theorem sumDispatch_blake2s_ok (c : Nat) (data : List Nat)
    (hs : isBlake2s c = true) (h32 : c - BLAKE2S_MIN + 1 = 32) :
    sumDispatch data c = .ok (blake2s256 data) := by
  simp [sumDispatch, hs, h32]

theorem sumDispatch_blake2s_err (c : Nat) (data : List Nat)
    (hs : isBlake2s c = true) (h32 : c - BLAKE2S_MIN + 1 ≠ 32) :
    sumDispatch data c = .error (.unsupportedBlake2sLength (c - BLAKE2S_MIN + 1)) := by
  simp [sumDispatch, hs, h32]

theorem sumDispatch_blake2b_ok32 (c : Nat) (data : List Nat)
    (hb : isBlake2b c = true) (h : c - BLAKE2B_MIN + 1 = 32) :
    sumDispatch data c = .ok (blake2bHash 32 data) := by
  simp [sumDispatch, not_blake2s_of_blake2b c hb, hb, h]

theorem sumDispatch_blake2b_ok48 (c : Nat) (data : List Nat)
    (hb : isBlake2b c = true) (h : c - BLAKE2B_MIN + 1 = 48) :
    sumDispatch data c = .ok (blake2bHash 48 data) := by
  simp [sumDispatch, not_blake2s_of_blake2b c hb, hb, h]

theorem sumDispatch_blake2b_ok64 (c : Nat) (data : List Nat)
    (hb : isBlake2b c = true) (h : c - BLAKE2B_MIN + 1 = 64) :
    sumDispatch data c = .ok (blake2bHash 64 data) := by
  simp [sumDispatch, not_blake2s_of_blake2b c hb, hb, h]

theorem sumDispatch_blake2b_err (c : Nat) (data : List Nat)
    (hb : isBlake2b c = true) (h32 : c - BLAKE2B_MIN + 1 ≠ 32)
    (h48 : c - BLAKE2B_MIN + 1 ≠ 48) (h64 : c - BLAKE2B_MIN + 1 ≠ 64) :
    sumDispatch data c = .error (.unsupportedBlake2bLength (c - BLAKE2B_MIN + 1)) := by
  simp [sumDispatch, not_blake2s_of_blake2b c hb, hb, h32, h48, h64]

set_option maxHeartbeats 1000000 in
theorem defaultLengthFix11 (data d : List Nat)
    (hd : sumDispatch data SHA1 = .ok d) :
    DefaultLengths SHA1 = some ((d.length : Int)) := by
  have h0 : sumDispatch data SHA1 = .ok (sumSHA1 data) := rfl
  rw [h0] at hd
  have h1 : sumSHA1 data = d := by
    injection hd
  subst h1
  rw [sumSHA1, sha1Hash_length]
  rfl

set_option maxHeartbeats 1000000 in
theorem defaultLengthFix12 (data d : List Nat)
    (hd : sumDispatch data SHA2_256 = .ok d) :
    DefaultLengths SHA2_256 = some ((d.length : Int)) := by
  have h0 : sumDispatch data SHA2_256 = .ok (sumSHA256 data) := rfl
  rw [h0] at hd
  have h1 : sumSHA256 data = d := by
    injection hd
  subst h1
  rw [sumSHA256, sha256Hash_length]
  rfl

set_option maxHeartbeats 1000000 in
theorem defaultLengthFix13 (data d : List Nat)
    (hd : sumDispatch data SHA2_512 = .ok d) :
    DefaultLengths SHA2_512 = some ((d.length : Int)) := by
  have h0 : sumDispatch data SHA2_512 = .ok (sumSHA512 data) := rfl
  rw [h0] at hd
  have h1 : sumSHA512 data = d := by
    injection hd
  subst h1
  rw [sumSHA512, sha512Hash_length]
  rfl

set_option maxHeartbeats 1000000 in
theorem defaultLengthFix14 (data d : List Nat)
    (hd : sumDispatch data SHA3 = .ok d) :
    DefaultLengths SHA3 = some ((d.length : Int)) := by
  have h0 : sumDispatch data SHA3 = .ok (sha3_512Hash data) := rfl
  rw [h0] at hd
  have h1 : sha3_512Hash data = d := by
    injection hd
  subst h1
  rw [sha3_512Hash_length]
  rfl

set_option maxHeartbeats 1000000 in
theorem defaultLengthFix1a (data d : List Nat)
    (hd : sumDispatch data KECCAK_224 = .ok d) :
    DefaultLengths KECCAK_224 = some ((d.length : Int)) := by
  have h0 : sumDispatch data KECCAK_224 = .ok (sumKeccak224 data) := rfl
  rw [h0] at hd
  have h1 : sumKeccak224 data = d := by
    injection hd
  subst h1
  rw [sumKeccak224, keccak224_length]
  rfl

set_option maxHeartbeats 1000000 in
theorem defaultLengthFix1b (data d : List Nat)
    (hd : sumDispatch data KECCAK_256 = .ok d) :
    DefaultLengths KECCAK_256 = some ((d.length : Int)) := by
  have h0 : sumDispatch data KECCAK_256 = .ok (sumKeccak256 data) := rfl
  rw [h0] at hd
  have h1 : sumKeccak256 data = d := by
    injection hd
  subst h1
  rw [sumKeccak256, keccak256_length]
  rfl

set_option maxHeartbeats 1000000 in
theorem defaultLengthFix1c (data d : List Nat)
    (hd : sumDispatch data KECCAK_384 = .ok d) :
    DefaultLengths KECCAK_384 = some ((d.length : Int)) := by
  have h0 : sumDispatch data KECCAK_384 = .ok (sumKeccak384 data) := rfl
  rw [h0] at hd
  have h1 : sumKeccak384 data = d := by
    injection hd
  subst h1
  rw [sumKeccak384, keccak384_length]
  rfl

set_option maxHeartbeats 1000000 in
theorem defaultLengthFix1d (data d : List Nat)
    (hd : sumDispatch data KECCAK_512 = .ok d) :
    DefaultLengths KECCAK_512 = some ((d.length : Int)) := by
  have h0 : sumDispatch data KECCAK_512 = .ok (sumKeccak512 data) := rfl
  rw [h0] at hd
  have h1 : sumKeccak512 data = d := by
    injection hd
  subst h1
  rw [sumKeccak512, keccak512_length]
  rfl

set_option maxHeartbeats 1000000 in
theorem defaultLengthFix22 (data d : List Nat)
    (hd : sumDispatch data MURMUR3 = .ok d) :
    DefaultLengths MURMUR3 = some ((d.length : Int)) := by
  have h0 : sumDispatch data MURMUR3 = .ok (leBytesLoop 4 (murmur3Sum32 data)) := rfl
  rw [h0] at hd
  have h1 : leBytesLoop 4 (murmur3Sum32 data) = d := by
    injection hd
  subst h1
  rw [leBytesLoop4_length]
  rfl

set_option maxHeartbeats 1000000 in
theorem defaultLengthFix56 (data d : List Nat)
    (hd : sumDispatch data DBL_SHA2_256 = .ok d) :
    DefaultLengths DBL_SHA2_256 = some ((d.length : Int)) := by
  have h0 : sumDispatch data DBL_SHA2_256 = .ok (sumSHA256 (sumSHA256 data)) := rfl
  rw [h0] at hd
  have h1 : sumSHA256 (sumSHA256 data) = d := by
    injection hd
  subst h1
  rw [sumSHA256, sha256Hash_length]
  rfl

/-- For every valid code on which the dispatch succeeds, the natural digest
length equals the code's default-length entry. -/
theorem sumDispatch_default_length (c : Nat) (data d : List Nat)
    (hv : ValidCode c = true) (hd : sumDispatch data c = .ok d) :
    DefaultLengths c = some ((d.length : Int)) := by
  rcases validCode_cases c hv with hc | hs | hb
  · simp only [fixedCodes, List.mem_cons, List.not_mem_nil, or_false] at hc
    rcases hc with rfl | rfl | rfl | rfl | rfl | rfl | rfl | rfl | rfl | rfl
    · exact defaultLengthFix11 data d hd
    · exact defaultLengthFix12 data d hd
    · exact defaultLengthFix13 data d hd
    · exact defaultLengthFix14 data d hd
    · exact defaultLengthFix1a data d hd
    · exact defaultLengthFix1b data d hd
    · exact defaultLengthFix1c data d hd
    · exact defaultLengthFix1d data d hd
    · exact defaultLengthFix22 data d hd
    · exact defaultLengthFix56 data d hd
  · rw [defaultLengths_blake2s c hs, blake2s_olen_cast c hs]
    by_cases h32 : c - BLAKE2S_MIN + 1 = 32
    · rw [sumDispatch_blake2s_ok c data hs h32] at hd
      injection hd with hd
      subst hd
      rw [blake2s256_length, h32]
    · rw [sumDispatch_blake2s_err c data hs h32] at hd
      exact absurd hd (by simp)
  · rw [defaultLengths_blake2b c hb, blake2b_olen_cast c hb]
    by_cases h32 : c - BLAKE2B_MIN + 1 = 32
    · rw [sumDispatch_blake2b_ok32 c data hb h32] at hd
      injection hd with hd
      subst hd
      rw [blake2bHash_length 32 data (by omega), h32]
    · by_cases h48 : c - BLAKE2B_MIN + 1 = 48
      · rw [sumDispatch_blake2b_ok48 c data hb h48] at hd
        injection hd with hd
        subst hd
        rw [blake2bHash_length 48 data (by omega), h48]
      · by_cases h64 : c - BLAKE2B_MIN + 1 = 64
        · rw [sumDispatch_blake2b_ok64 c data hb h64] at hd
          injection hd with hd
          subst hd
          rw [blake2bHash_length 64 data (by omega), h64]
        · rw [sumDispatch_blake2b_err c data hb h32 h48 h64] at hd
          exact absurd hd (by simp)

/-! ### Family-range descriptors and dispatch equations -/

/-- The derived output size of a family code: its offset in the range plus one. -/
def famOlen (c : Nat) : Nat :=
  if isBlake2s c then c - BLAKE2S_MIN + 1 else c - BLAKE2B_MIN + 1

/-- Whether the derived size of a family code is one of the implemented sizes
(32 for blake2s; 32, 48 or 64 for blake2b). -/
def famSupported (c : Nat) : Bool :=
  (isBlake2s c && decide (c - BLAKE2S_MIN + 1 = 32)) ||
  (isBlake2b c && (decide (c - BLAKE2B_MIN + 1 = 32) || decide (c - BLAKE2B_MIN + 1 = 48) ||
    decide (c - BLAKE2B_MIN + 1 = 64)))

/-- The UnsupportedLength error a family code fails with. -/
def famUnsupportedErr (c : Nat) : SumErr :=
  if isBlake2s c then .unsupportedBlake2sLength (c - BLAKE2S_MIN + 1)
  else .unsupportedBlake2bLength (c - BLAKE2B_MIN + 1)

theorem sumDispatch_eq_SHA1 (data : List Nat) :
    sumDispatch data SHA1 = .ok (sumSHA1 data) := rfl

theorem sumDispatch_eq_SHA2_256 (data : List Nat) :
    sumDispatch data SHA2_256 = .ok (sumSHA256 data) := rfl

theorem sumDispatch_eq_SHA2_512 (data : List Nat) :
    sumDispatch data SHA2_512 = .ok (sumSHA512 data) := rfl

theorem sumDispatch_eq_SHA3 (data : List Nat) :
    sumDispatch data SHA3 = .ok (sha3_512Hash data) := rfl

theorem sumDispatch_eq_KECCAK_224 (data : List Nat) :
    sumDispatch data KECCAK_224 = .ok (sumKeccak224 data) := rfl

theorem sumDispatch_eq_KECCAK_256 (data : List Nat) :
    sumDispatch data KECCAK_256 = .ok (sumKeccak256 data) := rfl

theorem sumDispatch_eq_KECCAK_384 (data : List Nat) :
    sumDispatch data KECCAK_384 = .ok (sumKeccak384 data) := rfl

theorem sumDispatch_eq_KECCAK_512 (data : List Nat) :
    sumDispatch data KECCAK_512 = .ok (sumKeccak512 data) := rfl

theorem sumDispatch_eq_MURMUR3 (data : List Nat) :
    sumDispatch data MURMUR3 = .ok (leBytesLoop 4 (murmur3Sum32 data)) := rfl

theorem sumDispatch_eq_DBL_SHA2_256 (data : List Nat) :
    sumDispatch data DBL_SHA2_256 = .ok (sumSHA256 (sumSHA256 data)) := rfl

/-! ### Success and failure paths of `Sum` -/

/-- Sentinel length on a code whose default is `n` and whose dispatch yields an
`n`-byte digest: `Sum` encodes the whole digest. -/
theorem Sum_sentinel_eq (c : Nat) (data dg : List Nat) (n : Nat)
    (hv : ValidCode c = true)
    (hdef : DefaultLengths c = some ((n : Int)))
    (hd : sumDispatch data c = .ok dg)
    (hlen : dg.length = n) :
    Sum data c (-1) = .ok (EncodeRaw dg c) := by
  unfold Sum SumWith
  rw [sumDigestWith_ok DefaultLengths data c (-1) ((n : Int)) dg hv
    (resolveLength_sentinel DefaultLengths c (-1) ((n : Int)) (by omega) hdef) hd
    (by omega) (by omega)]
  have ht : ((n : Int)).toNat = n := by omega
  rw [ht, ← hlen, List.take_length]
  rfl

/-- Explicit in-range length: `Sum` encodes the digest truncated to `l`. -/
theorem Sum_explicit_eq (c : Nat) (data dg : List Nat) (l : Int)
    (hv : ValidCode c = true)
    (hd : sumDispatch data c = .ok dg)
    (h0 : 0 ≤ l) (hl : l ≤ (dg.length : Int)) :
    Sum data c l = .ok (EncodeRaw (dg.take l.toNat) c) := by
  unfold Sum SumWith
  rw [sumDigestWith_ok DefaultLengths data c l l dg hv
    (resolveLength_nonneg DefaultLengths c l h0) hd h0 hl]
  rfl

/-- Explicit oversize length: the slice `d[0:length]` is out of range, the Go
runtime panic marker. -/
theorem Sum_explicit_panic (c : Nat) (data dg : List Nat) (l : Int)
    (hv : ValidCode c = true)
    (hd : sumDispatch data c = .ok dg)
    (hl : (dg.length : Int) < l) :
    Sum data c l = .error .sliceBoundsPanic := by
  unfold Sum SumWith
  rw [sumDigestWith_panic DefaultLengths data c l l dg hv
    (resolveLength_nonneg DefaultLengths c l (by omega)) hd (by omega)]
  rfl

/-- Sentinel length on a family code whose dispatch fails: the unsupported
family error surfaces through `Sum`. -/
theorem Sum_sentinel_dispatch_error (c : Nat) (data : List Nat) (e : SumErr) (dl : Int)
    (hv : ValidCode c = true)
    (hdef : DefaultLengths c = some dl)
    (hd : sumDispatch data c = .error e) :
    Sum data c (-1) = .error e := by
  unfold Sum SumWith
  rw [sumDigestWith_dispatch_error DefaultLengths data c (-1) dl e hv
    (resolveLength_sentinel DefaultLengths c (-1) dl (by omega) hdef) hd]
  rfl

theorem famSupported_iff (c : Nat) : famSupported c = true ↔
    (isBlake2s c = true ∧ c - BLAKE2S_MIN + 1 = 32) ∨
    (isBlake2b c = true ∧ (c - BLAKE2B_MIN + 1 = 32 ∨ c - BLAKE2B_MIN + 1 = 48 ∨
      c - BLAKE2B_MIN + 1 = 64)) := by
  simp [famSupported, Bool.or_eq_true, Bool.and_eq_true, decide_eq_true_eq]
  rw [or_assoc]

/-- A supported family code dispatches to its family primitive and the digest
has exactly the derived size. -/
theorem famDispatch_ok (c : Nat) (data : List Nat)
    (hf : isBlake2s c = true ∨ isBlake2b c = true)
    (hs : famSupported c = true) :
    ∃ dg, sumDispatch data c = .ok dg ∧ dg.length = famOlen c := by
  have hsup := (famSupported_iff c).mp hs
  rcases hf with h | h
  · have h32 : c - BLAKE2S_MIN + 1 = 32 := by
      rcases hsup with ⟨_, hx⟩ | ⟨hb, _⟩
      · exact hx
      · rw [not_blake2b_of_blake2s c h] at hb
        cases hb
    exact ⟨blake2s256 data, sumDispatch_blake2s_ok c data h h32,
      by rw [blake2s256_length, famOlen, if_pos h, h32]⟩
  · have hns := not_blake2s_of_blake2b c h
    have hcase : c - BLAKE2B_MIN + 1 = 32 ∨ c - BLAKE2B_MIN + 1 = 48 ∨
        c - BLAKE2B_MIN + 1 = 64 := by
      rcases hsup with ⟨hb, _⟩ | ⟨_, hx⟩
      · rw [hns] at hb
        cases hb
      · exact hx
    rcases hcase with h32 | h48 | h64
    · exact ⟨blake2bHash 32 data, sumDispatch_blake2b_ok32 c data h h32,
        by rw [blake2bHash_length 32 data (by omega), famOlen, if_neg (by simp [hns]), h32]⟩
    · exact ⟨blake2bHash 48 data, sumDispatch_blake2b_ok48 c data h h48,
        by rw [blake2bHash_length 48 data (by omega), famOlen, if_neg (by simp [hns]), h48]⟩
    · exact ⟨blake2bHash 64 data, sumDispatch_blake2b_ok64 c data h h64,
        by rw [blake2bHash_length 64 data (by omega), famOlen, if_neg (by simp [hns]), h64]⟩

/-- An unsupported family code dispatches to the UnsupportedLength error. -/
theorem famDispatch_err (c : Nat) (data : List Nat)
    (hf : isBlake2s c = true ∨ isBlake2b c = true)
    (hs : famSupported c = false) :
    sumDispatch data c = .error (famUnsupportedErr c) := by
  have hnsup : ¬ ((isBlake2s c = true ∧ c - BLAKE2S_MIN + 1 = 32) ∨
      (isBlake2b c = true ∧ (c - BLAKE2B_MIN + 1 = 32 ∨ c - BLAKE2B_MIN + 1 = 48 ∨
        c - BLAKE2B_MIN + 1 = 64))) := by
    intro hx
    rw [← famSupported_iff] at hx
    rw [hs] at hx
    cases hx
  rcases hf with h | h
  · have h32 : c - BLAKE2S_MIN + 1 ≠ 32 := by
      intro hx
      exact hnsup (Or.inl ⟨h, hx⟩)
    rw [sumDispatch_blake2s_err c data h h32, famUnsupportedErr, if_pos h]
  · have hns := not_blake2s_of_blake2b c h
    have h32 : c - BLAKE2B_MIN + 1 ≠ 32 := fun hx => hnsup (Or.inr ⟨h, Or.inl hx⟩)
    have h48 : c - BLAKE2B_MIN + 1 ≠ 48 := fun hx => hnsup (Or.inr ⟨h, Or.inr (Or.inl hx)⟩)
    have h64 : c - BLAKE2B_MIN + 1 ≠ 64 := fun hx => hnsup (Or.inr ⟨h, Or.inr (Or.inr hx)⟩)
    rw [sumDispatch_blake2b_err c data h h32 h48 h64, famUnsupportedErr,
      if_neg (by simp [hns])]

/-- The default length of a family code is its derived size. -/
theorem defaultLengths_family (c : Nat)
    (hf : isBlake2s c = true ∨ isBlake2b c = true) :
    DefaultLengths c = some ((famOlen c : Int)) := by
  rcases hf with h | h
  · rw [defaultLengths_blake2s c h, blake2s_olen_cast c h, famOlen, if_pos h]
  · rw [defaultLengths_blake2b c h, blake2b_olen_cast c h, famOlen,
      if_neg (by simp [not_blake2s_of_blake2b c h])]

/-! ### The claims -/

set_option maxHeartbeats 2000000 in
/-- C1: for every registered fixed algorithm code with an entry in the
default-length table and every input byte sequence (including the empty one),
`Sum data c sentinel` succeeds, and the digest it encodes has exactly
`DefaultLength(c)` bytes. -/
theorem sum_fixed_default_ok (c : Nat) (hc : c ∈ fixedCodes) (l : Int)
    (hl : DefaultLengths c = some l) (data : List Nat) :
    ∃ dg, sumDispatch data c = .ok dg ∧ Sum data c (-1) = .ok (EncodeRaw dg c) ∧
      (dg.length : Int) = l := by
  simp only [fixedCodes, List.mem_cons, List.not_mem_nil, or_false] at hc
  rcases hc with rfl | rfl | rfl | rfl | rfl | rfl | rfl | rfl | rfl | rfl
  · have hdef : DefaultLengths SHA1 = some ((20 : Nat) : Int) := rfl
    have hlen : (sumSHA1 data).length = 20 := sha1Hash_length data
    have hl2 : l = ((20 : Nat) : Int) := by
      rw [hdef] at hl
      exact (Option.some_inj.mp hl).symm
    subst hl2
    exact ⟨sumSHA1 data, sumDispatch_eq_SHA1 data,
      Sum_sentinel_eq SHA1 data (sumSHA1 data) 20 rfl hdef (sumDispatch_eq_SHA1 data) hlen,
      by rw [hlen]⟩
  · have hdef : DefaultLengths SHA2_256 = some ((32 : Nat) : Int) := rfl
    have hlen : (sumSHA256 data).length = 32 := sha256Hash_length data
    have hl2 : l = ((32 : Nat) : Int) := by
      rw [hdef] at hl
      exact (Option.some_inj.mp hl).symm
    subst hl2
    exact ⟨sumSHA256 data, sumDispatch_eq_SHA2_256 data,
      Sum_sentinel_eq SHA2_256 data (sumSHA256 data) 32 rfl hdef (sumDispatch_eq_SHA2_256 data) hlen,
      by rw [hlen]⟩
  · have hdef : DefaultLengths SHA2_512 = some ((64 : Nat) : Int) := rfl
    have hlen : (sumSHA512 data).length = 64 := sha512Hash_length data
    have hl2 : l = ((64 : Nat) : Int) := by
      rw [hdef] at hl
      exact (Option.some_inj.mp hl).symm
    subst hl2
    exact ⟨sumSHA512 data, sumDispatch_eq_SHA2_512 data,
      Sum_sentinel_eq SHA2_512 data (sumSHA512 data) 64 rfl hdef (sumDispatch_eq_SHA2_512 data) hlen,
      by rw [hlen]⟩
  · have hdef : DefaultLengths SHA3 = some ((64 : Nat) : Int) := rfl
    have hlen : (sha3_512Hash data).length = 64 := sha3_512Hash_length data
    have hl2 : l = ((64 : Nat) : Int) := by
      rw [hdef] at hl
      exact (Option.some_inj.mp hl).symm
    subst hl2
    exact ⟨sha3_512Hash data, sumDispatch_eq_SHA3 data,
      Sum_sentinel_eq SHA3 data (sha3_512Hash data) 64 rfl hdef (sumDispatch_eq_SHA3 data) hlen,
      by rw [hlen]⟩
  · have hdef : DefaultLengths KECCAK_224 = some ((28 : Nat) : Int) := rfl
    have hlen : (sumKeccak224 data).length = 28 := keccak224_length data
    have hl2 : l = ((28 : Nat) : Int) := by
      rw [hdef] at hl
      exact (Option.some_inj.mp hl).symm
    subst hl2
    exact ⟨sumKeccak224 data, sumDispatch_eq_KECCAK_224 data,
      Sum_sentinel_eq KECCAK_224 data (sumKeccak224 data) 28 rfl hdef (sumDispatch_eq_KECCAK_224 data) hlen,
      by rw [hlen]⟩
  · have hdef : DefaultLengths KECCAK_256 = some ((32 : Nat) : Int) := rfl
    have hlen : (sumKeccak256 data).length = 32 := keccak256_length data
    have hl2 : l = ((32 : Nat) : Int) := by
      rw [hdef] at hl
      exact (Option.some_inj.mp hl).symm
    subst hl2
    exact ⟨sumKeccak256 data, sumDispatch_eq_KECCAK_256 data,
      Sum_sentinel_eq KECCAK_256 data (sumKeccak256 data) 32 rfl hdef (sumDispatch_eq_KECCAK_256 data) hlen,
      by rw [hlen]⟩
  · have hdef : DefaultLengths KECCAK_384 = some ((48 : Nat) : Int) := rfl
    have hlen : (sumKeccak384 data).length = 48 := keccak384_length data
    have hl2 : l = ((48 : Nat) : Int) := by
      rw [hdef] at hl
      exact (Option.some_inj.mp hl).symm
    subst hl2
    exact ⟨sumKeccak384 data, sumDispatch_eq_KECCAK_384 data,
      Sum_sentinel_eq KECCAK_384 data (sumKeccak384 data) 48 rfl hdef (sumDispatch_eq_KECCAK_384 data) hlen,
      by rw [hlen]⟩
  · have hdef : DefaultLengths KECCAK_512 = some ((64 : Nat) : Int) := rfl
    have hlen : (sumKeccak512 data).length = 64 := keccak512_length data
    have hl2 : l = ((64 : Nat) : Int) := by
      rw [hdef] at hl
      exact (Option.some_inj.mp hl).symm
    subst hl2
    exact ⟨sumKeccak512 data, sumDispatch_eq_KECCAK_512 data,
      Sum_sentinel_eq KECCAK_512 data (sumKeccak512 data) 64 rfl hdef (sumDispatch_eq_KECCAK_512 data) hlen,
      by rw [hlen]⟩
  · have hdef : DefaultLengths MURMUR3 = some ((4 : Nat) : Int) := rfl
    have hlen : (leBytesLoop 4 (murmur3Sum32 data)).length = 4 := leBytesLoop4_length (murmur3Sum32 data)
    have hl2 : l = ((4 : Nat) : Int) := by
      rw [hdef] at hl
      exact (Option.some_inj.mp hl).symm
    subst hl2
    exact ⟨leBytesLoop 4 (murmur3Sum32 data), sumDispatch_eq_MURMUR3 data,
      Sum_sentinel_eq MURMUR3 data (leBytesLoop 4 (murmur3Sum32 data)) 4 rfl hdef (sumDispatch_eq_MURMUR3 data) hlen,
      by rw [hlen]⟩
  · have hdef : DefaultLengths DBL_SHA2_256 = some ((32 : Nat) : Int) := rfl
    have hlen : (sumSHA256 (sumSHA256 data)).length = 32 := sha256Hash_length (sumSHA256 data)
    have hl2 : l = ((32 : Nat) : Int) := by
      rw [hdef] at hl
      exact (Option.some_inj.mp hl).symm
    subst hl2
    exact ⟨sumSHA256 (sumSHA256 data), sumDispatch_eq_DBL_SHA2_256 data,
      Sum_sentinel_eq DBL_SHA2_256 data (sumSHA256 (sumSHA256 data)) 32 rfl hdef (sumDispatch_eq_DBL_SHA2_256 data) hlen,
      by rw [hlen]⟩

/-- Witness for C1 at the murmur3 code with empty input. -/
theorem sum_fixed_default_ok_witness :
    Sum [] MURMUR3 (-1) = .ok (EncodeRaw (leBytesLoop 4 (murmur3Sum32 [])) MURMUR3) ∧
    ((leBytesLoop 4 (murmur3Sum32 [])).length : Int) = 4 := by
  obtain ⟨dg, hdisp, hsum, hlen⟩ := sum_fixed_default_ok MURMUR3 (by decide) 4 rfl []
  rw [sumDispatch_eq_MURMUR3] at hdisp
  injection hdisp with h
  subst h
  exact ⟨hsum, hlen⟩

/-- C2: a family code whose derived size `c - familyMin + 1` is implemented
(32 for blake2s; 32, 48 or 64 for blake2b) sums to exactly that many digest
bytes under the default length; any other derived size fails with the
family's UnsupportedLength error. -/
theorem sum_family_default (c : Nat) (data : List Nat)
    (hf : isBlake2s c = true ∨ isBlake2b c = true) :
    (famSupported c = true →
      ∃ dg, sumDispatch data c = .ok dg ∧ dg.length = famOlen c ∧
        Sum data c (-1) = .ok (EncodeRaw dg c)) ∧
    (famSupported c = false → Sum data c (-1) = .error (famUnsupportedErr c)) := by
  constructor
  · intro hs
    obtain ⟨dg, hd, hlen⟩ := famDispatch_ok c data hf hs
    exact ⟨dg, hd, hlen,
      Sum_sentinel_eq c data dg (famOlen c) (validCode_family c hf)
        (defaultLengths_family c hf) hd hlen⟩
  · intro hs
    exact Sum_sentinel_dispatch_error c data (famUnsupportedErr c) ((famOlen c : Int))
      (validCode_family c hf) (defaultLengths_family c hf) (famDispatch_err c data hf hs)

/-- Witness for C2: blake2s-8 (derived size 1) is rejected; blake2s-256
(derived size 32) succeeds with the blake2s digest. -/
theorem sum_family_default_witness :
    Sum [] BLAKE2S_MIN (-1) = .error (famUnsupportedErr BLAKE2S_MIN) ∧
    Sum [] BLAKE2S_MAX (-1) = .ok (EncodeRaw (blake2s256 []) BLAKE2S_MAX) := by
  constructor
  · exact (sum_family_default BLAKE2S_MIN [] (Or.inl (by decide))).2 (by decide)
  · obtain ⟨dg, hd, hlen, hsum⟩ :=
      (sum_family_default BLAKE2S_MAX [] (Or.inl (by decide))).1 (by decide)
    rw [sumDispatch_blake2s_ok BLAKE2S_MAX [] (by decide) (by decide)] at hd
    injection hd with h
    subst h
    exact hsum

/-- C3: decoding the encoding of a consistent triple gives back exactly the
same code, length and digest. -/
theorem decode_encode_roundtrip (d : List Nat) (c l : Nat) (h : d.length = l) :
    Encode d c l = .ok (EncodeRaw d c) ∧ Decode (EncodeRaw d c) = .ok (c, l, d) := by
  subst h
  constructor
  · rw [Encode, if_pos rfl]
  · simp only [Decode, EncodeRaw, List.append_assoc, readUvarint_uvarint]
    simp

/-- Witness for C3 at a one-byte digest. -/
theorem decode_encode_roundtrip_witness :
    Encode [170] SHA1 1 = .ok (EncodeRaw [170] SHA1) ∧
    Decode (EncodeRaw [170] SHA1) = .ok (SHA1, 1, [170]) :=
  decode_encode_roundtrip [170] SHA1 1 rfl

/-- C4 (code bug): an explicitly requested length larger than the primitive's
natural output does not produce an error return — the final `d[0:length]`
slice is out of range, which in Go is a runtime panic (the distinguished
`sliceBoundsPanic` outcome of the embedding), shown here for sha2-256 whose
natural output is 32 bytes. -/
theorem sum_oversize_length_panics (data : List Nat) (l : Int) (h : 32 < l) :
    Sum data SHA2_256 l = .error .sliceBoundsPanic :=
  Sum_explicit_panic SHA2_256 data (sumSHA256 data) l rfl (sumDispatch_eq_SHA2_256 data)
    (by have := sha256Hash_length data; rw [show (sumSHA256 data).length = 32 from this]; omega)

/-- Witness for C4 at empty input and requested length 33. -/
theorem sum_oversize_length_panics_witness :
    32 < (33 : Int) ∧ Sum [] SHA2_256 33 = .error .sliceBoundsPanic :=
  ⟨by decide, sum_oversize_length_panics [] 33 (by decide)⟩

set_option maxRecDepth 100000 in
/-- C5 counterexample: the claim says every explicit non-negative requested
length other than 4 is an error for murmur3, but requesting length 2
succeeds, returning the first two digest bytes. -/
theorem murmur_short_length_not_an_error :
    Sum [] MURMUR3 2 = .ok (EncodeRaw [0, 0] MURMUR3) := by decide

/-- C5 (amended): murmur3 sums to the 4-byte little-endian encoding of the
32-bit hash; the sentinel uses default length 4; an explicit length `l` with
`0 ≤ l ≤ 4` is accepted and truncates to the first `l` bytes; an explicit
length above 4 is an out-of-range slice (runtime panic), not an error
return. -/
theorem sum_murmur_behavior (data : List Nat) (l : Int) :
    sumMURMUR3 data = .ok [murmur3Sum32 data % 256, murmur3Sum32 data / 256 % 256,
      murmur3Sum32 data / 65536 % 256, murmur3Sum32 data / 16777216 % 256] ∧
    Sum data MURMUR3 (-1) = .ok (EncodeRaw (leBytesLoop 4 (murmur3Sum32 data)) MURMUR3) ∧
    (0 ≤ l → l ≤ 4 → Sum data MURMUR3 l =
      .ok (EncodeRaw ((leBytesLoop 4 (murmur3Sum32 data)).take l.toNat) MURMUR3)) ∧
    (4 < l → Sum data MURMUR3 l = .error .sliceBoundsPanic) := by
  refine ⟨?_, ?_, ?_, ?_⟩
  · rw [sumMURMUR3]
    congr 1
    simp [leBytesLoop, Nat.div_div_eq_div_mul]
  · exact Sum_sentinel_eq MURMUR3 data (leBytesLoop 4 (murmur3Sum32 data)) 4 rfl rfl
      (sumDispatch_eq_MURMUR3 data) (leBytesLoop4_length (murmur3Sum32 data))
  · intro h0 h4
    exact Sum_explicit_eq MURMUR3 data (leBytesLoop 4 (murmur3Sum32 data)) l rfl
      (sumDispatch_eq_MURMUR3 data) h0
      (by have := leBytesLoop4_length (murmur3Sum32 data); omega)
  · intro h4
    exact Sum_explicit_panic MURMUR3 data (leBytesLoop 4 (murmur3Sum32 data)) l rfl
      (sumDispatch_eq_MURMUR3 data)
      (by have := leBytesLoop4_length (murmur3Sum32 data); omega)

/-- Witness for the amended C5: length 3 truncates, length 7 is the slice
panic. -/
theorem sum_murmur_behavior_witness :
    Sum [97] MURMUR3 3 =
      .ok (EncodeRaw ((leBytesLoop 4 (murmur3Sum32 [97])).take (Int.toNat 3)) MURMUR3) ∧
    Sum [97] MURMUR3 7 = .error .sliceBoundsPanic :=
  ⟨(sum_murmur_behavior [97] 3).2.2.1 (by decide) (by decide),
   (sum_murmur_behavior [97] 7).2.2.2 (by decide)⟩

/-- C6: for every valid code with a default length `dl` and every explicit
length `0 ≤ l < dl`, the digest `Sum` computes is exactly the first `l` bytes
of the digest it computes at the default length, for every input (and both
invocations fail identically when the dispatch fails). -/
theorem sum_truncation_prefix (c : Nat) (data : List Nat) (l dl : Int)
    (hv : ValidCode c = true) (hdl : DefaultLengths c = some dl)
    (h0 : 0 ≤ l) (hl : l < dl) :
    sumDigest data c l = (sumDigest data c dl).map (List.take l.toNat) ∧
    Sum data c l = (sumDigest data c dl).map (fun dg => EncodeRaw (dg.take l.toNat) c) := by
  cases hdisp : sumDispatch data c with
  | error e =>
    have e1 : sumDigestWith DefaultLengths data c l = .error e :=
      sumDigestWith_dispatch_error DefaultLengths data c l l e hv
        (resolveLength_nonneg DefaultLengths c l h0) hdisp
    have e2 : sumDigestWith DefaultLengths data c dl = .error e :=
      sumDigestWith_dispatch_error DefaultLengths data c dl dl e hv
        (resolveLength_nonneg DefaultLengths c dl (by omega)) hdisp
    constructor
    · rw [sumDigest, sumDigest, e1, e2]
      rfl
    · rw [Sum, SumWith, sumDigest, e1, e2]
      rfl
  | ok d =>
    have hnat := sumDispatch_default_length c data d hv hdisp
    rw [hdl] at hnat
    have hdlen : dl = ((d.length : Nat) : Int) := Option.some_inj.mp hnat
    have o1 : sumDigestWith DefaultLengths data c l = .ok (d.take l.toNat) :=
      sumDigestWith_ok DefaultLengths data c l l d hv
        (resolveLength_nonneg DefaultLengths c l h0) hdisp h0 (by omega)
    have o2 : sumDigestWith DefaultLengths data c dl = .ok (d.take dl.toNat) :=
      sumDigestWith_ok DefaultLengths data c dl dl d hv
        (resolveLength_nonneg DefaultLengths c dl (by omega)) hdisp (by omega) (by omega)
    have ht : d.take dl.toNat = d := by
      rw [show dl.toNat = d.length by omega, List.take_length]
    constructor
    · rw [sumDigest, sumDigest, o1, o2, ht]
      rfl
    · rw [Sum, SumWith, sumDigest, o1, o2, ht]
      rfl

/-- Witness for C6 at the murmur3 code, empty input, length 2 against the
default 4. -/
theorem sum_truncation_prefix_witness :
    sumDigest [] MURMUR3 2 = (sumDigest [] MURMUR3 4).map (List.take (Int.toNat 2)) ∧
    Sum [] MURMUR3 2 =
      (sumDigest [] MURMUR3 4).map (fun dg => EncodeRaw (dg.take (Int.toNat 2)) MURMUR3) :=
  sum_truncation_prefix MURMUR3 [] 2 4 rfl rfl (by decide) (by decide)

/-- C7: an unrecognized code makes `Sum` fail with the InvalidCode error for
every data and length; a recognized code summed with the sentinel length but
whose code has no entry in the default-length table fails with the
NoDefaultLength error (stated over an arbitrary table, since every code of
the concrete registry carries a default). -/
theorem sum_error_classification (defaults : Nat → Option Int) (data : List Nat)
    (c : Nat) (l : Int) :
    (ValidCode c = false → SumWith defaults data c l = .error (.invalidCode c)) ∧
    (ValidCode c = true → l < 0 → defaults c = none →
      SumWith defaults data c l = .error (.noDefaultLength c)) := by
  constructor
  · intro hv
    rw [SumWith, sumDigestWith_invalid defaults data c l hv]
    rfl
  · intro hv hneg hnone
    rw [SumWith, sumDigestWith_noDefault defaults data c l hv hneg hnone]
    rfl

/-- Witness for C7: code 0 is invalid under the concrete table (so `Sum`
itself, which is `SumWith DefaultLengths`, rejects it), and sha1 under an
empty table with the sentinel hits the NoDefaultLength branch. -/
theorem sum_error_classification_witness :
    SumWith DefaultLengths [] 0 7 = .error (.invalidCode 0) ∧
    SumWith (fun _ => none) [] SHA1 (-1) = .error (.noDefaultLength SHA1) :=
  ⟨(sum_error_classification DefaultLengths [] 0 7).1 (by decide),
   (sum_error_classification (fun _ => none) [] SHA1 (-1)).2 (by decide) (by decide) rfl⟩

set_option maxRecDepth 100000 in
/-- C8: summing the empty sequence with the double-sha2-256 code applies
SHA-256 twice and the digest is the well-known 32-byte constant
5df6e0e2761359d30a8275058e299fcc0381534545f55cf43e41983f5d4c9456. -/
theorem sum_dbl_sha256_empty :
    Sum [] DBL_SHA2_256 (-1) = .ok (EncodeRaw (sumSHA256 (sumSHA256 [])) DBL_SHA2_256) ∧
    sumSHA256 (sumSHA256 []) =
      [0x5d, 0xf6, 0xe0, 0xe2, 0x76, 0x13, 0x59, 0xd3, 0x0a, 0x82, 0x75, 0x05, 0x8e, 0x29,
       0x9f, 0xcc, 0x03, 0x81, 0x53, 0x45, 0x45, 0xf5, 0x5c, 0xf4, 0x3e, 0x41, 0x98, 0x3f,
       0x5d, 0x4c, 0x94, 0x56] := by
  constructor
  · exact Sum_sentinel_eq DBL_SHA2_256 [] (sumSHA256 (sumSHA256 [])) 32 rfl rfl
      (sumDispatch_eq_DBL_SHA2_256 []) (sha256Hash_length (sumSHA256 []))
  · decide

/-- C9: `Sum` is deterministic — identical arguments give identical results;
in this embedding the whole computation is a pure function of its three
arguments (the Go code only reads package tables that are never mutated
after initialization). -/
theorem sum_deterministic (data1 data2 : List Nat) (c1 c2 : Nat) (l1 l2 : Int)
    (hdata : data1 = data2) (hcode : c1 = c2) (hlen : l1 = l2) :
    Sum data1 c1 l1 = Sum data2 c2 l2 := by
  subst hdata
  subst hcode
  subst hlen
  rfl

/-- Witness for C9 at a concrete call. -/
theorem sum_deterministic_witness :
    Sum [1, 2, 3] MURMUR3 4 = Sum [1, 2, 3] MURMUR3 4 :=
  sum_deterministic [1, 2, 3] [1, 2, 3] MURMUR3 MURMUR3 4 4 rfl rfl rfl

/-- C10: for family codes the primitive variant is selected solely by the
code's offset in its range (the dispatch takes no length argument); an
explicit length `0 ≤ l ≤ derived size` then truncates the derived-size
digest to its first `l` bytes. -/
theorem sum_family_truncates (c : Nat) (data : List Nat) (l : Int)
    (hf : isBlake2s c = true ∨ isBlake2b c = true)
    (hs : famSupported c = true) (h0 : 0 ≤ l) (hl : l ≤ (famOlen c : Int)) :
    ∃ dg, sumDispatch data c = .ok dg ∧ dg.length = famOlen c ∧
      Sum data c l = .ok (EncodeRaw (dg.take l.toNat) c) := by
  obtain ⟨dg, hd, hlen⟩ := famDispatch_ok c data hf hs
  exact ⟨dg, hd, hlen,
    Sum_explicit_eq c data dg l (validCode_family c hf) hd h0 (by omega)⟩

set_option maxRecDepth 100000 in
/-- Witness for C10: blake2b-256 (derived size 32) with explicit length 2
returns the first two bytes of the blake2b-256 digest of the empty input. -/
theorem sum_family_truncates_witness :
    Sum [] 0xb220 2 = .ok (EncodeRaw [14, 87] 0xb220) := by
  obtain ⟨dg, hd, hlen, hsum⟩ :=
    sum_family_truncates 0xb220 [] 2 (Or.inr (by decide)) (by decide) (by decide) (by decide)
  rw [sumDispatch_blake2b_ok32 0xb220 [] (by decide) (by decide)] at hd
  injection hd with h
  subst h
  rw [hsum]
  have hval : (blake2bHash 32 []).take (Int.toNat 2) = [14, 87] := by decide
  rw [hval]

end Multihash
